import Mathlib

/-!
Verification of the regional labor-rate resolution engine
(`laborRates.js` and `zipToState.js`).

The JavaScript source is shallowly embedded as follows:
* JS values reaching `getLaborRate` are modelled by `JSValue`
  (null, strings, numbers, booleans); JS truthiness and the
  `.length` property access are modelled by `jsFalsy` / `jsLength`.
* Exact decimal table constants are rationals (`ℚ`).
* The haversine computation (`calculateDistance`) is over `ℝ`, with
  `Math.sin`/`Math.cos`/`Math.atan2`/`Math.sqrt` as the real functions
  and `Math.PI` as `Real.pi`.
* `parseInt` is modelled by `jsParseIntL` on character lists
  (whitespace skip, optional sign, hex `0x` prefix, maximal digit
  prefix, `NaN` as `none`).
-/

open Real

namespace FairRepair

/-- Model of the JavaScript values that may be passed as the `zip`
argument (the engine tolerates absent and non-string input). -/
inductive JSValue where
  | jsNull : JSValue
  | jsStr (s : String) : JSValue
  | jsNum (n : Int) : JSValue
  | jsBool (b : Bool) : JSValue
deriving DecidableEq

/-- JS truthiness test for `!zip`: `null`, `""`, `0` and `false` are falsy. -/
def jsFalsy : JSValue → Bool
  | .jsNull => true
  | .jsStr s => s = ""
  | .jsNum n => n = 0
  | .jsBool b => !b

/-- The JS property access `zip.length`: defined (`some`) only on strings,
`undefined` (`none`) otherwise. -/
def jsLength : JSValue → Option Nat
  | .jsStr s => some s.length
  | _ => none

/-- Underlying string of a `JSValue` (used only where the source has
already established the value is a string). -/
def jsStrVal : JSValue → String
  | .jsStr s => s
  | _ => ""

/-- Value of a decimal digit character, `none` on other characters. -/
def decDigitVal (c : Char) : Option Nat :=
  if c.isDigit then some (c.toNat - '0'.toNat) else none

/-- Value of a hexadecimal digit character, `none` on other characters. -/
def hexDigitVal (c : Char) : Option Nat :=
  if c.isDigit then some (c.toNat - '0'.toNat)
  else if 'a' ≤ c ∧ c ≤ 'f' then some (c.toNat - 'a'.toNat + 10)
  else if 'A' ≤ c ∧ c ≤ 'F' then some (c.toNat - 'A'.toNat + 10)
  else none

/-- Accumulate the maximal leading run of digits (in the given base);
`none` when no digit was consumed, mirroring `parseInt` returning `NaN`. -/
def parseDigitsAux (base : Nat) (val : Char → Option Nat) :
    List Char → Option Nat → Option Nat
  | [], acc => acc
  | c :: cs, acc =>
    match val c with
    | some d => parseDigitsAux base val cs (some (acc.getD 0 * base + d))
    | none => acc

/-- Digit-prefix parsing after sign handling: a `0x`/`0X` prefix selects
hexadecimal, otherwise radix 10 (the `parseInt(s)` default-radix rule). -/
def jsParseBody : List Char → Option Nat
  | '0' :: 'x' :: rest => parseDigitsAux 16 hexDigitVal rest none
  | '0' :: 'X' :: rest => parseDigitsAux 16 hexDigitVal rest none
  | cs => parseDigitsAux 10 decDigitVal cs none

/-- JavaScript `parseInt` on a character list: skip leading whitespace,
optional sign, then `jsParseBody`; `none` models `NaN`. -/
def jsParseIntL (cs : List Char) : Option Int :=
  match cs.dropWhile Char.isWhitespace with
  | '-' :: rest => (jsParseBody rest).map (fun n => -(n : Int))
  | '+' :: rest => (jsParseBody rest).map (fun n => (n : Int))
  | cs1 => (jsParseBody cs1).map (fun n => (n : Int))

/-- JavaScript `parseInt` on a string. -/
def jsParseInt (s : String) : Option Int :=
  jsParseIntL s.data

/-- Embedding of `getStateFromZip` (zipToState.js, lines 7-69).
The source rejects falsy and non-string input, parses
`zip.substring(0, 5)` and scans the range table in order; every
comparison against `NaN` is false, so a failed parse falls through to
`null`. -/
def getStateFromZip (zip : JSValue) : Option String :=
  match zip with
  | .jsStr s =>
    if s = "" then none
    else
      match jsParseIntL (s.data.take 5) with
      | none => none
      | some zipNum =>
        if 35000 ≤ zipNum ∧ zipNum ≤ 36999 then some "AL"
        else if 99500 ≤ zipNum ∧ zipNum ≤ 99999 then some "AK"
        else if 85000 ≤ zipNum ∧ zipNum ≤ 86999 then some "AZ"
        else if 71600 ≤ zipNum ∧ zipNum ≤ 72999 then some "AR"
        else if 90000 ≤ zipNum ∧ zipNum ≤ 96699 then some "CA"
        else if 80000 ≤ zipNum ∧ zipNum ≤ 81999 then some "CO"
        else if 6000 ≤ zipNum ∧ zipNum ≤ 6999 then some "CT"
        else if 19700 ≤ zipNum ∧ zipNum ≤ 19999 then some "DE"
        else if 20000 ≤ zipNum ∧ zipNum ≤ 20099 then some "DC"
        else if 32000 ≤ zipNum ∧ zipNum ≤ 34999 then some "FL"
        else if 30000 ≤ zipNum ∧ zipNum ≤ 31999 then some "GA"
        else if 96700 ≤ zipNum ∧ zipNum ≤ 96899 then some "HI"
        else if 83200 ≤ zipNum ∧ zipNum ≤ 83999 then some "ID"
        else if 60000 ≤ zipNum ∧ zipNum ≤ 62999 then some "IL"
        else if 46000 ≤ zipNum ∧ zipNum ≤ 47999 then some "IN"
        else if 50000 ≤ zipNum ∧ zipNum ≤ 52999 then some "IA"
        else if 66000 ≤ zipNum ∧ zipNum ≤ 67999 then some "KS"
        else if 40000 ≤ zipNum ∧ zipNum ≤ 42999 then some "KY"
        else if 70000 ≤ zipNum ∧ zipNum ≤ 71599 then some "LA"
        else if 3900 ≤ zipNum ∧ zipNum ≤ 4999 then some "ME"
        else if 20600 ≤ zipNum ∧ zipNum ≤ 21999 then some "MD"
        else if 1000 ≤ zipNum ∧ zipNum ≤ 2799 then some "MA"
        else if 48000 ≤ zipNum ∧ zipNum ≤ 49999 then some "MI"
        else if 55000 ≤ zipNum ∧ zipNum ≤ 56999 then some "MN"
        else if 38600 ≤ zipNum ∧ zipNum ≤ 39999 then some "MS"
        else if 63000 ≤ zipNum ∧ zipNum ≤ 65999 then some "MO"
        else if 59000 ≤ zipNum ∧ zipNum ≤ 59999 then some "MT"
        else if 68000 ≤ zipNum ∧ zipNum ≤ 69999 then some "NE"
        else if 88900 ≤ zipNum ∧ zipNum ≤ 89999 then some "NV"
        else if 3000 ≤ zipNum ∧ zipNum ≤ 3899 then some "NH"
        else if 7000 ≤ zipNum ∧ zipNum ≤ 8999 then some "NJ"
        else if 87000 ≤ zipNum ∧ zipNum ≤ 88499 then some "NM"
        else if 10000 ≤ zipNum ∧ zipNum ≤ 14999 then some "NY"
        else if 27000 ≤ zipNum ∧ zipNum ≤ 28999 then some "NC"
        else if 58000 ≤ zipNum ∧ zipNum ≤ 58999 then some "ND"
        else if 43000 ≤ zipNum ∧ zipNum ≤ 45999 then some "OH"
        else if 73000 ≤ zipNum ∧ zipNum ≤ 74999 then some "OK"
        else if 97000 ≤ zipNum ∧ zipNum ≤ 97999 then some "OR"
        else if 15000 ≤ zipNum ∧ zipNum ≤ 19699 then some "PA"
        else if 2800 ≤ zipNum ∧ zipNum ≤ 2999 then some "RI"
        else if 29000 ≤ zipNum ∧ zipNum ≤ 29999 then some "SC"
        else if 57000 ≤ zipNum ∧ zipNum ≤ 57999 then some "SD"
        else if 37000 ≤ zipNum ∧ zipNum ≤ 38599 then some "TN"
        else if 75000 ≤ zipNum ∧ zipNum ≤ 79999 then some "TX"
        else if 84000 ≤ zipNum ∧ zipNum ≤ 84999 then some "UT"
        else if 5000 ≤ zipNum ∧ zipNum ≤ 5999 then some "VT"
        else if 20100 ≤ zipNum ∧ zipNum ≤ 20199 then some "VA"
        else if 22000 ≤ zipNum ∧ zipNum ≤ 24699 then some "VA"
        else if 98000 ≤ zipNum ∧ zipNum ≤ 99499 then some "WA"
        else if 24700 ≤ zipNum ∧ zipNum ≤ 26999 then some "WV"
        else if 53000 ≤ zipNum ∧ zipNum ≤ 54999 then some "WI"
        else if 82000 ≤ zipNum ∧ zipNum ≤ 83199 then some "WY"
        else none
  | _ => none

/-- Embedding of `STATE_LABOR_RATES` (laborRates.js, lines 23-60),
an association list in source order; values are exact decimals. -/
def STATE_LABOR_RATES : List (String × ℚ) :=
  [("AZ", 138.78), ("DE", 142.15), ("FL", 142.74), ("HI", 136.74),
   ("MS", 151.67), ("NE", 147.41), ("OH", 136.07), ("OK", 147.81),
   ("OR", 151.00), ("VT", 127.15), ("WY", 151.18),
   ("IL", 144.17), ("IN", 144.17), ("IA", 144.17), ("KS", 144.17),
   ("MI", 144.17), ("MN", 144.17), ("MO", 144.17), ("ND", 144.17),
   ("SD", 144.17), ("WI", 144.17),
   ("CT", 135.63), ("ME", 135.63), ("MA", 135.63), ("NH", 135.63),
   ("NJ", 135.63), ("NY", 135.63), ("PA", 135.63), ("RI", 135.63),
   ("AL", 146.47), ("AR", 146.47), ("GA", 146.47), ("KY", 146.47),
   ("LA", 146.47), ("NC", 146.47), ("SC", 146.47), ("TN", 146.47),
   ("VA", 146.47), ("WV", 146.47),
   ("NM", 144.57), ("TX", 144.57),
   ("AK", 144.06), ("CA", 144.06), ("CO", 144.06), ("ID", 144.06),
   ("MT", 144.06), ("NV", 144.06), ("UT", 144.06), ("WA", 144.06),
   ("MD", 135.63), ("DC", 135.63)]

/-- The `NATIONAL_AVERAGE` constant (laborRates.js, line 63). -/
def NATIONAL_AVERAGE : ℚ := 144.06

/-- A record of `CITY_COORDINATES` (laborRates.js, lines 66-92). -/
structure CityData where
  lat : ℚ
  lon : ℚ
  rate : ℚ
deriving DecidableEq

/-- Embedding of `CITY_COORDINATES` in source (object-literal) order;
the iteration order of the resolver loop follows this list. -/
def CITY_COORDINATES : List (String × CityData) :=
  [("new york", ⟨40.7128, -74.0060, 140⟩),
   ("los angeles", ⟨34.0522, -118.2437, 149.50⟩),
   ("chicago", ⟨41.8781, -87.6298, 147⟩),
   ("houston", ⟨29.7604, -95.3698, 147⟩),
   ("phoenix", ⟨33.4484, -112.0740, 142⟩),
   ("philadelphia", ⟨39.9526, -75.1652, 140⟩),
   ("san antonio", ⟨29.4241, -98.4936, 147⟩),
   ("san diego", ⟨32.7157, -117.1611, 149.50⟩),
   ("dallas", ⟨32.7767, -96.7970, 147⟩),
   ("san jose", ⟨37.3382, -121.8863, 150⟩),
   ("austin", ⟨30.2672, -97.7431, 147⟩),
   ("jacksonville", ⟨30.3322, -81.6557, 144.50⟩),
   ("fort worth", ⟨32.7555, -97.3308, 147⟩),
   ("charlotte", ⟨35.2271, -80.8431, 148⟩),
   ("san francisco", ⟨37.7749, -122.4194, 152.50⟩),
   ("indianapolis", ⟨39.7684, -86.1581, 147⟩),
   ("columbus", ⟨39.9612, -82.9988, 140⟩),
   ("seattle", ⟨47.6062, -122.3321, 147⟩),
   ("denver", ⟨39.7392, -104.9903, 147⟩),
   ("washington dc", ⟨38.9072, -77.0369, 140⟩),
   ("boston", ⟨42.3601, -71.0589, 140⟩),
   ("nashville", ⟨36.1627, -86.7816, 148⟩),
   ("oklahoma city", ⟨35.4676, -97.5164, 148⟩),
   ("las vegas", ⟨36.1699, -115.1398, 147⟩),
   ("portland", ⟨45.5152, -122.6784, 151⟩)]

/-- JavaScript `Math.atan2`, by quadrant; the engine only ever reaches
the non-negative quadrant. -/
noncomputable def jsAtan2 (y x : ℝ) : ℝ :=
  if 0 < x then arctan (y / x)
  else if x < 0 ∧ 0 ≤ y then arctan (y / x) + π
  else if x < 0 ∧ y < 0 then arctan (y / x) - π
  else if x = 0 ∧ 0 < y then π / 2
  else if x = 0 ∧ y < 0 then -(π / 2)
  else 0

/-- The local `a` of `calculateDistance` (laborRates.js, lines 106-108):
`sin(dLat/2)·sin(dLat/2) + cos(lat1·π/180)·cos(lat2·π/180)·sin(dLon/2)·sin(dLon/2)`
with `dLat = (lat2-lat1)·π/180`, `dLon = (lon2-lon1)·π/180`. -/
noncomputable def haversineTerm (lat1 lon1 lat2 lon2 : ℝ) : ℝ :=
  Real.sin ((lat2 - lat1) * π / 180 / 2) * Real.sin ((lat2 - lat1) * π / 180 / 2) +
  Real.cos (lat1 * π / 180) * Real.cos (lat2 * π / 180) *
  Real.sin ((lon2 - lon1) * π / 180 / 2) * Real.sin ((lon2 - lon1) * π / 180 / 2)

/-- Embedding of `calculateDistance` (laborRates.js, lines 102-111):
`R * c` with `R = 3959` and `c = 2 * atan2(sqrt(a), sqrt(1-a))`. -/
noncomputable def calculateDistance (lat1 lon1 lat2 lon2 : ℝ) : ℝ :=
  3959 * (2 * jsAtan2 (Real.sqrt (haversineTerm lat1 lon1 lat2 lon2))
    (Real.sqrt (1 - haversineTerm lat1 lon1 lat2 lon2)))

/-- Embedding of `getZipCoordinates` (laborRates.js, lines 118-142);
band interpolation is exact rational arithmetic, the fallback is the
continental-center point `(39.8, -98.5)`. A `NaN` parse satisfies no
band comparison and also falls back. -/
def getZipCoordinates (zip : String) : ℚ × ℚ :=
  match jsParseInt zip with
  | some zipNum =>
    if 10000 ≤ zipNum ∧ zipNum ≤ 14999 then
      (40.7 + ((zipNum : ℚ) - 10000) / 50000, -74.0 + ((zipNum : ℚ) - 10000) / 100000)
    else if 90000 ≤ zipNum ∧ zipNum ≤ 96999 then
      (34.0 + ((zipNum : ℚ) - 90000) / 70000, -118.0 + ((zipNum : ℚ) - 90000) / 100000)
    else if 60000 ≤ zipNum ∧ zipNum ≤ 69999 then
      (41.8 + ((zipNum : ℚ) - 60000) / 100000, -87.6 + ((zipNum : ℚ) - 60000) / 100000)
    else if 77000 ≤ zipNum ∧ zipNum ≤ 79999 then
      (29.7 + ((zipNum : ℚ) - 77000) / 30000, -95.3 + ((zipNum : ℚ) - 77000) / 50000)
    else (39.8, -98.5)
  | none => (39.8, -98.5)

/-- The loop state of the nearest-city scan: the source's `nearestCity`
object `{name, distance, rate}`; its `minDistance` variable always
equals the distance stored here, and `null` is `none`. -/
structure NearCity where
  name : String
  distance : ℝ
  rate : ℚ

/-- One iteration of the nearest-city loop (laborRates.js, lines 185-195):
replace the current best exactly when the new distance is strictly
smaller (the initial `minDistance = Infinity` compares greater than any
real distance, hence the `none` case always replaces). -/
noncomputable def cityStep (lat lon : ℝ) (acc : Option NearCity)
    (city : String × CityData) : Option NearCity :=
  let d := calculateDistance lat lon (city.2.lat : ℝ) (city.2.lon : ℝ)
  match acc with
  | none => some ⟨city.1, d, city.2.rate⟩
  | some nc => if d < nc.distance then some ⟨city.1, d, city.2.rate⟩ else acc

/-- The full nearest-city scan over `CITY_COORDINATES`. -/
noncomputable def findNearestCity (lat lon : ℝ) : Option NearCity :=
  CITY_COORDINATES.foldl (cityStep lat lon) none

/-- The `breakdown` object of a rate resolution; `distanceToCity` is
absent (`none`) on the branches that do not set it. -/
structure Breakdown where
  baseRate : ℚ
  cityPremium : ℚ
  nearestCity : Option String
  distanceToCity : Option ℝ

/-- The result object of `getLaborRate`. -/
structure RateResolution where
  rate : ℚ
  source : String
  breakdown : Breakdown

/-- The National-Average fallback result (laborRates.js, lines 152-160
and 166-174). -/
def nationalAverageResult : RateResolution :=
  { rate := NATIONAL_AVERAGE
    source := "National Average"
    breakdown :=
      { baseRate := NATIONAL_AVERAGE
        cityPremium := 0
        nearestCity := none
        distanceToCity := none } }

/-- JavaScript `Math.round(d * 10) / 10` (round half toward positive
infinity, as Mathlib's `round`). -/
noncomputable def jsRound1 (d : ℝ) : ℝ :=
  (round (d * 10) : ℤ) / 10

/-- Embedding of `getLaborRate` (laborRates.js, lines 150-222).
The guard `!zip || zip.length !== 5` is the falsy test plus the length
property comparison; `STATE_LABOR_RATES[state] || NATIONAL_AVERAGE` is
`getD` (no table rate is falsy). -/
noncomputable def getLaborRate (zip : JSValue) : RateResolution :=
  if jsFalsy zip ∨ jsLength zip ≠ some 5 then nationalAverageResult
  else
    match getStateFromZip zip with
    | none => nationalAverageResult
    | some state =>
      let baseRate := ((STATE_LABOR_RATES.lookup state).getD NATIONAL_AVERAGE)
      let zipCoords := getZipCoordinates (jsStrVal zip)
      match findNearestCity (zipCoords.1 : ℝ) (zipCoords.2 : ℝ) with
      | some nearestCity =>
        if nearestCity.distance ≤ 15 then
          { rate := nearestCity.rate
            source := nearestCity.name ++ " metro area"
            breakdown :=
              { baseRate := baseRate
                cityPremium := nearestCity.rate - baseRate
                nearestCity := some nearestCity.name
                distanceToCity := some (jsRound1 nearestCity.distance) } }
        else
          { rate := baseRate
            source := state ++ " state average"
            breakdown :=
              { baseRate := baseRate
                cityPremium := 0
                nearestCity := some nearestCity.name
                distanceToCity := some (jsRound1 nearestCity.distance) } }
      | none =>
        { rate := baseRate
          source := state ++ " state average"
          breakdown :=
            { baseRate := baseRate
              cityPremium := 0
              nearestCity := none
              distanceToCity := none } }

/-- Embedding of `getLaborMultiplier` (laborRates.js, lines 229-232). -/
noncomputable def getLaborMultiplier (zip : JSValue) : ℚ :=
  (getLaborRate zip).rate / NATIONAL_AVERAGE

/-- Base rate the resolver would use for a given zip value: the state's
table rate when the state resolves, the national average otherwise. -/
noncomputable def baseRateOfZip (zip : JSValue) : ℚ :=
  match getStateFromZip zip with
  | some st => (STATE_LABOR_RATES.lookup st).getD NATIONAL_AVERAGE
  | none => NATIONAL_AVERAGE

/-- Well-formedness of a resolution, as promised by the specification:
a strictly positive usable rate, a positive base rate, the additive
premium identity and a non-empty source classification. -/
def WellFormedResolution (r : RateResolution) : Prop :=
  0 < r.rate ∧ 0 < r.breakdown.baseRate ∧
    r.rate = r.breakdown.baseRate + r.breakdown.cityPremium ∧ r.source ≠ ""

end FairRepair

namespace FairRepair

/-! ### Analytic facts about the embedded haversine distance -/

/-- Normal form of the haversine term with squared sines and the
half-angle arguments written as `x * π / 360`. -/
theorem haversineTerm_eq (l1 o1 l2 o2 : ℝ) :
    haversineTerm l1 o1 l2 o2 =
      Real.sin ((l2 - l1) * π / 360) ^ 2 +
        Real.cos (l1 * π / 180) * Real.cos (l2 * π / 180) *
          Real.sin ((o2 - o1) * π / 360) ^ 2 := by
  unfold haversineTerm
  rw [show (l2 - l1) * π / 180 / 2 = (l2 - l1) * π / 360 by ring,
    show (o2 - o1) * π / 180 / 2 = (o2 - o1) * π / 360 by ring]
  ring

/-- The haversine term is symmetric in its two coordinate pairs. -/
theorem haversineTerm_symm (l1 o1 l2 o2 : ℝ) :
    haversineTerm l2 o2 l1 o1 = haversineTerm l1 o1 l2 o2 := by
  unfold haversineTerm
  rw [show (l1 - l2) * π / 180 / 2 = -((l2 - l1) * π / 180 / 2) by ring,
    show (o1 - o2) * π / 180 / 2 = -((o2 - o1) * π / 180 / 2) by ring,
]
  simp only [Real.sin_neg]
  ring

/-- Nonnegativity of the haversine term for latitudes with nonnegative
cosine. -/
theorem haversineTerm_nonneg (l1 o1 l2 o2 : ℝ)
    (hc1 : 0 ≤ Real.cos (l1 * π / 180)) (hc2 : 0 ≤ Real.cos (l2 * π / 180)) :
    0 ≤ haversineTerm l1 o1 l2 o2 := by
  rw [haversineTerm_eq]
  nlinarith [sq_nonneg (Real.sin ((l2 - l1) * π / 360)),
    mul_nonneg (mul_nonneg hc1 hc2) (sq_nonneg (Real.sin ((o2 - o1) * π / 360)))]

/-- The haversine term never exceeds 1 when both latitude cosines are
nonnegative, so the source's `sqrt(1 - a)` stays real. -/
theorem haversineTerm_le_one (l1 o1 l2 o2 : ℝ)
    (hc1 : 0 ≤ Real.cos (l1 * π / 180)) (hc2 : 0 ≤ Real.cos (l2 * π / 180)) :
    haversineTerm l1 o1 l2 o2 ≤ 1 := by
  rw [haversineTerm_eq]
  have hs : Real.sin ((l2 - l1) * π / 360) ^ 2 =
      1 / 2 - Real.cos (l2 * π / 180 - l1 * π / 180) / 2 := by
    rw [show (l2 - l1) * π / 360 = (l2 * π / 180 - l1 * π / 180) / 2 by ring,
      Real.sin_sq, Real.cos_sq,
      show 2 * ((l2 * π / 180 - l1 * π / 180) / 2) = l2 * π / 180 - l1 * π / 180 by ring]
    ring
  rw [hs, Real.cos_sub]
  have h1 := Real.sin_sq_le_one ((o2 - o1) * π / 360)
  have h2 := Real.cos_le_one (l1 * π / 180 + l2 * π / 180)
  rw [Real.cos_add] at h2
  nlinarith [mul_nonneg (mul_nonneg hc1 hc2)
    (sub_nonneg.mpr (Real.sin_sq_le_one ((o2 - o1) * π / 360))),
    mul_nonneg hc1 hc2, sq_nonneg (Real.sin ((o2 - o1) * π / 360))]

/-- On the quadrant the engine reaches, `atan2(sqrt a, sqrt (1-a))` is
`arcsin (sqrt a)`. -/
theorem jsAtan2_sqrt_eq_arcsin {a : ℝ} (h0 : 0 ≤ a) (h1 : a ≤ 1) :
    jsAtan2 (Real.sqrt a) (Real.sqrt (1 - a)) = Real.arcsin (Real.sqrt a) := by
  by_cases ha : a = 1
  · subst ha
    norm_num [jsAtan2, Real.sqrt_zero, Real.sqrt_one, Real.arcsin_one]
  · have hlt : a < 1 := lt_of_le_of_ne h1 ha
    have hx : 0 < Real.sqrt (1 - a) := Real.sqrt_pos.mpr (by linarith)
    have hmem : Real.sqrt a ∈ Set.Ioo (-(1 : ℝ)) 1 := by
      constructor
      · have := Real.sqrt_nonneg a
        linarith
      · have := Real.sqrt_lt_sqrt h0 hlt
        rwa [Real.sqrt_one] at this
    unfold jsAtan2
    rw [if_pos hx, Real.arcsin_eq_arctan hmem, Real.sq_sqrt h0]

/-- For arguments in the unit interval, `arcsin` dominates the identity. -/
theorem arcsin_ge_self {x : ℝ} (h0 : 0 ≤ x) (h1 : x ≤ 1) : x ≤ Real.arcsin x := by
  rcases eq_or_lt_of_le h0 with h | h
  · rw [← h, Real.arcsin_zero]
  · have h2 : 0 < Real.arcsin x := Real.arcsin_pos.mpr h
    have h3 := Real.sin_lt h2
    rw [Real.sin_arcsin (by linarith) h1] at h3
    exact h3.le

/-- The inverse tangent is dominated by the identity on nonnegative
arguments. -/
theorem arctan_le_self {x : ℝ} (h0 : 0 ≤ x) : Real.arctan x ≤ x := by
  rcases eq_or_lt_of_le h0 with h | h
  · rw [← h, Real.arctan_zero]
  · have h1 : 0 < Real.arctan x := by
      have hm := Real.arctan_strictMono h
      rwa [Real.arctan_zero] at hm
    have h2 := Real.lt_tan h1 (Real.arctan_lt_pi_div_two x)
    rw [Real.tan_arctan] at h2
    exact h2.le

/-- For small arguments `arcsin x ≤ 2 x`. -/
theorem arcsin_le_two_mul {x : ℝ} (h0 : 0 ≤ x) (hx : x ≤ 1 / 2) :
    Real.arcsin x ≤ 2 * x := by
  rcases eq_or_lt_of_le h0 with h | h
  · rw [← h, Real.arcsin_zero]
    norm_num
  · have hpil := Real.pi_gt_d6
    have hs1 : (1 : ℝ) / 2 < Real.sin 1 := by
      nlinarith [Real.sin_gt_sub_cube (by norm_num : (0 : ℝ) < 1) (le_refl (1 : ℝ))]
    have hy1 : Real.arcsin x ≤ 1 := by
      have hm := Real.monotone_arcsin (by linarith : x ≤ Real.sin 1)
      rwa [Real.arcsin_sin (by nlinarith) (by nlinarith)] at hm
    have hy0 : 0 < Real.arcsin x := Real.arcsin_pos.mpr h
    have hsin := Real.sin_gt_sub_cube hy0 hy1
    rw [Real.sin_arcsin (by linarith) (by linarith)] at hsin
    have hcube : 0 ≤ Real.arcsin x * (1 - Real.arcsin x) * (1 + Real.arcsin x) :=
      mul_nonneg (mul_nonneg hy0.le (by linarith)) (by linarith)
    nlinarith

/-- The distance function in closed `arcsin` form (the `atan2` call
resolved on the reachable quadrant). -/
theorem calculateDistance_eq_arcsin (l1 o1 l2 o2 : ℝ)
    (hc1 : 0 ≤ Real.cos (l1 * π / 180)) (hc2 : 0 ≤ Real.cos (l2 * π / 180)) :
    calculateDistance l1 o1 l2 o2 =
      7918 * Real.arcsin (Real.sqrt (haversineTerm l1 o1 l2 o2)) := by
  unfold calculateDistance
  rw [jsAtan2_sqrt_eq_arcsin (haversineTerm_nonneg l1 o1 l2 o2 hc1 hc2) (haversineTerm_le_one l1 o1 l2 o2 hc1 hc2)]
  ring

/-- Chord-style lower bound on the distance. -/
theorem dist_ge_sqrt (l1 o1 l2 o2 : ℝ)
    (hc1 : 0 ≤ Real.cos (l1 * π / 180)) (hc2 : 0 ≤ Real.cos (l2 * π / 180)) :
    7918 * Real.sqrt (haversineTerm l1 o1 l2 o2) ≤ calculateDistance l1 o1 l2 o2 := by
  rw [calculateDistance_eq_arcsin l1 o1 l2 o2 hc1 hc2]
  have h0 := Real.sqrt_nonneg (haversineTerm l1 o1 l2 o2)
  have h1 : Real.sqrt (haversineTerm l1 o1 l2 o2) ≤ 1 := by
    have := Real.sqrt_le_sqrt (haversineTerm_le_one l1 o1 l2 o2 hc1 hc2)
    rwa [Real.sqrt_one] at this
  nlinarith [arcsin_ge_self h0 h1]

/-- To prove the distance exceeds `t` it suffices to bound the haversine
term below by `(t/7918)^2`. -/
theorem dist_gt_of_hav (t l1 o1 l2 o2 : ℝ) (ht : 0 ≤ t)
    (hc1 : 0 ≤ Real.cos (l1 * π / 180)) (hc2 : 0 ≤ Real.cos (l2 * π / 180))
    (hh : (t / 7918) ^ 2 < haversineTerm l1 o1 l2 o2) :
    t < calculateDistance l1 o1 l2 o2 := by
  have h1 : t / 7918 < Real.sqrt (haversineTerm l1 o1 l2 o2) :=
    (Real.lt_sqrt (by positivity)).mpr hh
  have h2 := dist_ge_sqrt l1 o1 l2 o2 hc1 hc2
  nlinarith

/-- To prove the distance is at most `t` it suffices to bound the
haversine term above by `(t/7918)^2 / 4`. -/
theorem dist_le_of_hav (t l1 o1 l2 o2 : ℝ) (ht0 : 0 ≤ t) (ht1 : t ≤ 7918)
    (hc1 : 0 ≤ Real.cos (l1 * π / 180)) (hc2 : 0 ≤ Real.cos (l2 * π / 180))
    (hh : haversineTerm l1 o1 l2 o2 ≤ (t / 7918) ^ 2 / 4) :
    calculateDistance l1 o1 l2 o2 ≤ t := by
  have h0 := haversineTerm_nonneg l1 o1 l2 o2 hc1 hc2
  have hs : Real.sqrt (haversineTerm l1 o1 l2 o2) ≤ t / 7918 / 2 := by
    have h1 := Real.sqrt_le_sqrt hh
    rwa [show (t / 7918) ^ 2 / 4 = (t / 7918 / 2) ^ 2 by ring,
      Real.sqrt_sq (by positivity)] at h1
  have hhalf : Real.sqrt (haversineTerm l1 o1 l2 o2) ≤ 1 / 2 := by
    have : t / 7918 / 2 ≤ 1 / 2 := by nlinarith
    linarith
  have harc := arcsin_le_two_mul (Real.sqrt_nonneg _) hhalf
  rw [calculateDistance_eq_arcsin l1 o1 l2 o2 hc1 hc2]
  nlinarith

end FairRepair

namespace FairRepair

/-- Latitudes within 89 degrees of the equator have nonnegative cosine
in radians. -/
theorem cos_deg_nonneg (l : ℝ) (h : |l| ≤ 89) : 0 ≤ Real.cos (l * π / 180) := by
  obtain ⟨hl, hr⟩ := abs_le.mp h
  apply Real.cos_nonneg_of_mem_Icc
  constructor <;> nlinarith [Real.pi_pos]

/-- Rational lower bound for the cosine of a latitude given in degrees. -/
theorem cos_deg_ge (l A : ℝ) (hA : A ≤ 1 - (l * 3.141593 / 180) ^ 2 / 2) :
    A ≤ Real.cos (l * π / 180) := by
  have h1 := Real.one_sub_sq_div_two_le_cos (x := l * π / 180)
  have hpi2 : π ^ 2 ≤ 3.141593 ^ 2 := by
    nlinarith [Real.pi_pos, Real.pi_lt_d6]
  nlinarith [mul_nonneg (sq_nonneg l) (sub_nonneg.mpr hpi2)]

/-- Rational lower bound for the sine of a (half-)angle given in
degrees. -/
theorem sin_deg_lb (d : ℝ) (h0 : 0 < d) (h1 : d ≤ 100) :
    d * 3.141592 / 360 - (d * 3.141593 / 360) ^ 3 / 4 < Real.sin (d * π / 360) := by
  have hpu := Real.pi_lt_d6
  have hpl := Real.pi_gt_d6
  have hx0 : 0 < d * π / 360 := by positivity
  have hx1 : d * π / 360 ≤ 1 := by nlinarith
  have hs := Real.sin_gt_sub_cube hx0 hx1
  have e1 : d * 3.141592 / 360 ≤ d * π / 360 := by nlinarith
  have e2 : (d * π / 360) ^ 3 ≤ (d * 3.141593 / 360) ^ 3 := by
    apply pow_le_pow_left₀ hx0.le (by nlinarith)
  linarith

/-- Monotonicity of the squared sine between a degree lower bound and an
absolute degree difference of at most 180. -/
theorem sin_sq_deg_mono (D d : ℝ) (h0 : 0 ≤ d) (hdD : d ≤ |D|) (hD : |D| ≤ 180) :
    Real.sin (d * π / 360) ^ 2 ≤ Real.sin (D * π / 360) ^ 2 := by
  have hsq : Real.sin (D * π / 360) ^ 2 = Real.sin (|D| * π / 360) ^ 2 := by
    rcases abs_cases D with ⟨h, _⟩ | ⟨h, _⟩
    · rw [h]
    · rw [h, show -D * π / 360 = -(D * π / 360) by ring, Real.sin_neg]
      ring
  rw [hsq]
  have h1 : d * π / 360 ≤ |D| * π / 360 := by nlinarith [Real.pi_pos]
  have h2 : |D| * π / 360 ≤ π / 2 := by nlinarith [Real.pi_pos]
  have hs1 : 0 ≤ Real.sin (d * π / 360) :=
    Real.sin_nonneg_of_nonneg_of_le_pi (by positivity) (by nlinarith [Real.pi_pos])
  have hmono : Real.sin (d * π / 360) ≤ Real.sin (|D| * π / 360) :=
    Real.sin_le_sin_of_le_of_le_pi_div_two (by nlinarith [Real.pi_pos]) h2 h1
  exact pow_le_pow_left₀ hs1 hmono 2

/-- Latitude-difference lower bound for the haversine term. -/
theorem hav_ge_lat (l1 o1 l2 o2 d : ℝ)
    (hc1 : 0 ≤ Real.cos (l1 * π / 180)) (hc2 : 0 ≤ Real.cos (l2 * π / 180))
    (h0 : 0 ≤ d) (hdD : d ≤ |l2 - l1|) (hD : |l2 - l1| ≤ 180) :
    Real.sin (d * π / 360) ^ 2 ≤ haversineTerm l1 o1 l2 o2 := by
  rw [haversineTerm_eq]
  have hm := sin_sq_deg_mono (l2 - l1) d h0 hdD hD
  nlinarith [mul_nonneg (mul_nonneg hc1 hc2) (sq_nonneg (Real.sin ((o2 - o1) * π / 360)))]

/-- Longitude-difference lower bound for the haversine term, scaled by
rational lower bounds on the two latitude cosines. -/
theorem hav_ge_lon (l1 o1 l2 o2 d A B : ℝ)
    (hcA : A ≤ Real.cos (l1 * π / 180)) (hcB : B ≤ Real.cos (l2 * π / 180))
    (hA0 : 0 ≤ A) (hB0 : 0 ≤ B)
    (h0 : 0 ≤ d) (hdD : d ≤ |o2 - o1|) (hD : |o2 - o1| ≤ 180) :
    A * B * Real.sin (d * π / 360) ^ 2 ≤ haversineTerm l1 o1 l2 o2 := by
  rw [haversineTerm_eq]
  have hm := sin_sq_deg_mono (o2 - o1) d h0 hdD hD
  have hprod : A * B ≤ Real.cos (l1 * π / 180) * Real.cos (l2 * π / 180) :=
    mul_le_mul hcA hcB hB0 (le_trans hA0 hcA)
  nlinarith [sq_nonneg (Real.sin ((l2 - l1) * π / 360)),
    sq_nonneg (Real.sin (d * π / 360)),
    mul_nonneg hA0 hB0,
    mul_le_mul hprod hm (sq_nonneg (Real.sin (d * π / 360)))
      (mul_nonneg (le_trans hA0 hcA) (le_trans hB0 hcB))]

/-- Upper bound on the haversine term by the squared radian half-angle
differences. -/
theorem hav_le_sq_add_sq (l1 o1 l2 o2 : ℝ)
    (hc1 : 0 ≤ Real.cos (l1 * π / 180)) (hc2 : 0 ≤ Real.cos (l2 * π / 180)) :
    haversineTerm l1 o1 l2 o2 ≤
      ((l2 - l1) * π / 360) ^ 2 + ((o2 - o1) * π / 360) ^ 2 := by
  rw [haversineTerm_eq]
  have h1 := Real.sin_sq_le_sq (x := (l2 - l1) * π / 360)
  have h2 := Real.sin_sq_le_sq (x := (o2 - o1) * π / 360)
  have h3 := Real.cos_le_one (l1 * π / 180)
  have h4 := Real.cos_le_one (l2 * π / 180)
  nlinarith [sq_nonneg (Real.sin ((o2 - o1) * π / 360)),
    mul_nonneg hc1 hc2,
    mul_nonneg (mul_nonneg hc1 hc2) (sq_nonneg (Real.sin ((o2 - o1) * π / 360))),
    mul_nonneg (sub_nonneg.mpr h4) hc1,
    mul_nonneg (mul_nonneg (sub_nonneg.mpr h3) hc2) (sq_nonneg (Real.sin ((o2 - o1) * π / 360))),
    mul_nonneg (mul_nonneg (sub_nonneg.mpr h4) hc1) (sq_nonneg (Real.sin ((o2 - o1) * π / 360)))]

/-- Distance exceeds `t` when the latitude difference alone is already
large enough; all side conditions are rational. -/
theorem dist_gt_lat (t l1 o1 l2 o2 d : ℝ) (ht : 0 ≤ t)
    (h89a : |l1| ≤ 89) (h89b : |l2| ≤ 89)
    (hd0 : 0 < d) (hd100 : d ≤ 100) (hdD : d ≤ |l2 - l1|) (hD : |l2 - l1| ≤ 180)
    (hnum : t / 7918 < d * 3.141592 / 360 - (d * 3.141593 / 360) ^ 3 / 4) :
    t < calculateDistance l1 o1 l2 o2 := by
  have hc1 := cos_deg_nonneg l1 h89a
  have hc2 := cos_deg_nonneg l2 h89b
  apply dist_gt_of_hav t l1 o1 l2 o2 ht hc1 hc2
  have hs := sin_deg_lb d hd0 hd100
  have hge := hav_ge_lat l1 o1 l2 o2 d hc1 hc2 hd0.le hdD hD
  have h1 : t / 7918 < Real.sin (d * π / 360) := by linarith
  have h2 : (t / 7918) ^ 2 < Real.sin (d * π / 360) ^ 2 := by
    nlinarith [div_nonneg ht (by norm_num : (0 : ℝ) ≤ 7918)]
  linarith

/-- Distance exceeds `t` when the longitude difference is large enough,
given rational latitude-cosine lower bounds; all side conditions are
rational. -/
theorem dist_gt_lon (t l1 o1 l2 o2 d A B : ℝ) (ht : 0 ≤ t)
    (h89a : |l1| ≤ 89) (h89b : |l2| ≤ 89)
    (hA : A ≤ 1 - (l1 * 3.141593 / 180) ^ 2 / 2)
    (hB : B ≤ 1 - (l2 * 3.141593 / 180) ^ 2 / 2)
    (hA0 : 0 ≤ A) (hB0 : 0 ≤ B)
    (hd0 : 0 < d) (hd100 : d ≤ 100) (hdD : d ≤ |o2 - o1|) (hD : |o2 - o1| ≤ 180)
    (hs0 : 0 ≤ d * 3.141592 / 360 - (d * 3.141593 / 360) ^ 3 / 4)
    (hnum : (t / 7918) ^ 2 <
      A * B * (d * 3.141592 / 360 - (d * 3.141593 / 360) ^ 3 / 4) ^ 2) :
    t < calculateDistance l1 o1 l2 o2 := by
  have hc1 := cos_deg_nonneg l1 h89a
  have hc2 := cos_deg_nonneg l2 h89b
  have hcA := cos_deg_ge l1 A hA
  have hcB := cos_deg_ge l2 B hB
  apply dist_gt_of_hav t l1 o1 l2 o2 ht hc1 hc2
  have hs := sin_deg_lb d hd0 hd100
  have hge := hav_ge_lon l1 o1 l2 o2 d A B hcA hcB hA0 hB0 hd0.le hdD hD
  have h2 : (d * 3.141592 / 360 - (d * 3.141593 / 360) ^ 3 / 4) ^ 2 ≤
      Real.sin (d * π / 360) ^ 2 := by
    nlinarith
  nlinarith [mul_nonneg hA0 hB0]

/-- Distance at most `t` when both coordinate differences are small;
all side conditions are rational. -/
theorem dist_le_close (t l1 o1 l2 o2 : ℝ)
    (h89a : |l1| ≤ 89) (h89b : |l2| ≤ 89) (ht0 : 0 ≤ t) (ht1 : t ≤ 7918)
    (hnum : ((l2 - l1) * 3.141593 / 360) ^ 2 + ((o2 - o1) * 3.141593 / 360) ^ 2 ≤
      (t / 7918) ^ 2 / 4) :
    calculateDistance l1 o1 l2 o2 ≤ t := by
  have hc1 := cos_deg_nonneg l1 h89a
  have hc2 := cos_deg_nonneg l2 h89b
  apply dist_le_of_hav t l1 o1 l2 o2 ht0 ht1 hc1 hc2
  have hup := hav_le_sq_add_sq l1 o1 l2 o2 hc1 hc2
  have hpi2 : π ^ 2 ≤ 3.141593 ^ 2 := by
    nlinarith [Real.pi_pos, Real.pi_lt_d6]
  nlinarith [mul_nonneg (sq_nonneg (l2 - l1)) (sub_nonneg.mpr hpi2),
    mul_nonneg (sq_nonneg (o2 - o1)) (sub_nonneg.mpr hpi2)]

end FairRepair

namespace FairRepair

/-- Every city in the table is more than 15 miles from the
continental-center fallback coordinate (39.8, -98.5). -/
theorem center_far : ∀ p ∈ CITY_COORDINATES,
    (15 : ℝ) < calculateDistance ((39.8 : ℚ) : ℝ) ((-98.5 : ℚ) : ℝ)
      (p.2.lat : ℝ) (p.2.lon : ℝ) := by
  intro p hp
  simp only [CITY_COORDINATES] at hp
  fin_cases hp
  · dsimp only
    push_cast
    refine dist_gt_lat _ _ _ _ _ 0.9 ?_ ?_ ?_ ?_ ?_ ?_ ?_ ?_ <;>
      norm_num [le_abs, abs_le]
  · dsimp only
    push_cast
    refine dist_gt_lat _ _ _ _ _ 5 ?_ ?_ ?_ ?_ ?_ ?_ ?_ ?_ <;>
      norm_num [le_abs, abs_le]
  · dsimp only
    push_cast
    refine dist_gt_lat _ _ _ _ _ 2 ?_ ?_ ?_ ?_ ?_ ?_ ?_ ?_ <;>
      norm_num [le_abs, abs_le]
  · dsimp only
    push_cast
    refine dist_gt_lat _ _ _ _ _ 10 ?_ ?_ ?_ ?_ ?_ ?_ ?_ ?_ <;>
      norm_num [le_abs, abs_le]
  · dsimp only
    push_cast
    refine dist_gt_lat _ _ _ _ _ 6 ?_ ?_ ?_ ?_ ?_ ?_ ?_ ?_ <;>
      norm_num [le_abs, abs_le]
  · dsimp only
    push_cast
    refine dist_gt_lon _ _ _ _ _ 23 0.75 0.75 ?_ ?_ ?_ ?_ ?_ ?_ ?_ ?_ ?_ ?_ ?_ ?_ ?_ <;>
      norm_num [le_abs, abs_le]
  · dsimp only
    push_cast
    refine dist_gt_lat _ _ _ _ _ 10 ?_ ?_ ?_ ?_ ?_ ?_ ?_ ?_ <;>
      norm_num [le_abs, abs_le]
  · dsimp only
    push_cast
    refine dist_gt_lat _ _ _ _ _ 7 ?_ ?_ ?_ ?_ ?_ ?_ ?_ ?_ <;>
      norm_num [le_abs, abs_le]
  · dsimp only
    push_cast
    refine dist_gt_lat _ _ _ _ _ 7 ?_ ?_ ?_ ?_ ?_ ?_ ?_ ?_ <;>
      norm_num [le_abs, abs_le]
  · dsimp only
    push_cast
    refine dist_gt_lat _ _ _ _ _ 2 ?_ ?_ ?_ ?_ ?_ ?_ ?_ ?_ <;>
      norm_num [le_abs, abs_le]
  · dsimp only
    push_cast
    refine dist_gt_lat _ _ _ _ _ 9 ?_ ?_ ?_ ?_ ?_ ?_ ?_ ?_ <;>
      norm_num [le_abs, abs_le]
  · dsimp only
    push_cast
    refine dist_gt_lat _ _ _ _ _ 9 ?_ ?_ ?_ ?_ ?_ ?_ ?_ ?_ <;>
      norm_num [le_abs, abs_le]
  · dsimp only
    push_cast
    refine dist_gt_lat _ _ _ _ _ 7 ?_ ?_ ?_ ?_ ?_ ?_ ?_ ?_ <;>
      norm_num [le_abs, abs_le]
  · dsimp only
    push_cast
    refine dist_gt_lat _ _ _ _ _ 4 ?_ ?_ ?_ ?_ ?_ ?_ ?_ ?_ <;>
      norm_num [le_abs, abs_le]
  · dsimp only
    push_cast
    refine dist_gt_lat _ _ _ _ _ 2 ?_ ?_ ?_ ?_ ?_ ?_ ?_ ?_ <;>
      norm_num [le_abs, abs_le]
  · dsimp only
    push_cast
    refine dist_gt_lon _ _ _ _ _ 12 0.75 0.75 ?_ ?_ ?_ ?_ ?_ ?_ ?_ ?_ ?_ ?_ ?_ ?_ ?_ <;>
      norm_num [le_abs, abs_le]
  · dsimp only
    push_cast
    refine dist_gt_lon _ _ _ _ _ 15 0.75 0.75 ?_ ?_ ?_ ?_ ?_ ?_ ?_ ?_ ?_ ?_ ?_ ?_ ?_ <;>
      norm_num [le_abs, abs_le]
  · dsimp only
    push_cast
    refine dist_gt_lat _ _ _ _ _ 7 ?_ ?_ ?_ ?_ ?_ ?_ ?_ ?_ <;>
      norm_num [le_abs, abs_le]
  · dsimp only
    push_cast
    refine dist_gt_lon _ _ _ _ _ 6 0.75 0.75 ?_ ?_ ?_ ?_ ?_ ?_ ?_ ?_ ?_ ?_ ?_ ?_ ?_ <;>
      norm_num [le_abs, abs_le]
  · dsimp only
    push_cast
    refine dist_gt_lat _ _ _ _ _ 0.8 ?_ ?_ ?_ ?_ ?_ ?_ ?_ ?_ <;>
      norm_num [le_abs, abs_le]
  · dsimp only
    push_cast
    refine dist_gt_lat _ _ _ _ _ 2 ?_ ?_ ?_ ?_ ?_ ?_ ?_ ?_ <;>
      norm_num [le_abs, abs_le]
  · dsimp only
    push_cast
    refine dist_gt_lat _ _ _ _ _ 3 ?_ ?_ ?_ ?_ ?_ ?_ ?_ ?_ <;>
      norm_num [le_abs, abs_le]
  · dsimp only
    push_cast
    refine dist_gt_lat _ _ _ _ _ 4 ?_ ?_ ?_ ?_ ?_ ?_ ?_ ?_ <;>
      norm_num [le_abs, abs_le]
  · dsimp only
    push_cast
    refine dist_gt_lat _ _ _ _ _ 3 ?_ ?_ ?_ ?_ ?_ ?_ ?_ ?_ <;>
      norm_num [le_abs, abs_le]
  · dsimp only
    push_cast
    refine dist_gt_lat _ _ _ _ _ 5 ?_ ?_ ?_ ?_ ?_ ?_ ?_ ?_ <;>
      norm_num [le_abs, abs_le]

set_option maxHeartbeats 1000000 in
/-- Every city in the table is more than 15 miles from every coordinate
the estimator produces for the stateless band 96900-96999. -/
theorem band969_far (lat lon : ℝ)
    (hlat1 : 34.0985 ≤ lat) (hlat2 : lat ≤ 34.1)
    (hlon1 : -117.931 ≤ lon) (hlon2 : lon ≤ -117.93) :
    ∀ p ∈ CITY_COORDINATES,
      (15 : ℝ) < calculateDistance lat lon (p.2.lat : ℝ) (p.2.lon : ℝ) := by
  intro p hp
  simp only [CITY_COORDINATES] at hp
  fin_cases hp
  · dsimp only
    push_cast
    refine dist_gt_lat _ _ _ _ _ 6 ?_ ?_ ?_ ?_ ?_ ?_ ?_ ?_
    · norm_num
    · rw [abs_le]; constructor <;> linarith
    · norm_num [abs_le]
    · norm_num
    · norm_num
    · rw [le_abs]; left; linarith
    · rw [abs_le]; constructor <;> linarith
    · norm_num
  · dsimp only
    push_cast
    refine dist_gt_lon _ _ _ _ _ 0.3127 0.82 0.82 ?_ ?_ ?_ ?_ ?_ ?_ ?_ ?_ ?_ ?_ ?_ ?_ ?_
    · norm_num
    · rw [abs_le]; constructor <;> linarith
    · norm_num [abs_le]
    · nlinarith [hlat1, hlat2,
        mul_nonneg (sub_nonneg.mpr hlat2) (le_trans (by norm_num) hlat1)]
    · norm_num
    · norm_num
    · norm_num
    · norm_num
    · norm_num
    · rw [le_abs]; right; linarith
    · rw [abs_le]; constructor <;> linarith
    · norm_num
    · norm_num
  · dsimp only
    push_cast
    refine dist_gt_lat _ _ _ _ _ 7 ?_ ?_ ?_ ?_ ?_ ?_ ?_ ?_
    · norm_num
    · rw [abs_le]; constructor <;> linarith
    · norm_num [abs_le]
    · norm_num
    · norm_num
    · rw [le_abs]; left; linarith
    · rw [abs_le]; constructor <;> linarith
    · norm_num
  · dsimp only
    push_cast
    refine dist_gt_lat _ _ _ _ _ 4 ?_ ?_ ?_ ?_ ?_ ?_ ?_ ?_
    · norm_num
    · rw [abs_le]; constructor <;> linarith
    · norm_num [abs_le]
    · norm_num
    · norm_num
    · rw [le_abs]; right; linarith
    · rw [abs_le]; constructor <;> linarith
    · norm_num
  · dsimp only
    push_cast
    refine dist_gt_lat _ _ _ _ _ 0.6 ?_ ?_ ?_ ?_ ?_ ?_ ?_ ?_
    · norm_num
    · rw [abs_le]; constructor <;> linarith
    · norm_num [abs_le]
    · norm_num
    · norm_num
    · rw [le_abs]; right; linarith
    · rw [abs_le]; constructor <;> linarith
    · norm_num
  · dsimp only
    push_cast
    refine dist_gt_lat _ _ _ _ _ 5 ?_ ?_ ?_ ?_ ?_ ?_ ?_ ?_
    · norm_num
    · rw [abs_le]; constructor <;> linarith
    · norm_num [abs_le]
    · norm_num
    · norm_num
    · rw [le_abs]; left; linarith
    · rw [abs_le]; constructor <;> linarith
    · norm_num
  · dsimp only
    push_cast
    refine dist_gt_lat _ _ _ _ _ 4 ?_ ?_ ?_ ?_ ?_ ?_ ?_ ?_
    · norm_num
    · rw [abs_le]; constructor <;> linarith
    · norm_num [abs_le]
    · norm_num
    · norm_num
    · rw [le_abs]; right; linarith
    · rw [abs_le]; constructor <;> linarith
    · norm_num
  · dsimp only
    push_cast
    refine dist_gt_lat _ _ _ _ _ 1.3 ?_ ?_ ?_ ?_ ?_ ?_ ?_ ?_
    · norm_num
    · rw [abs_le]; constructor <;> linarith
    · norm_num [abs_le]
    · norm_num
    · norm_num
    · rw [le_abs]; right; linarith
    · rw [abs_le]; constructor <;> linarith
    · norm_num
  · dsimp only
    push_cast
    refine dist_gt_lat _ _ _ _ _ 1.3 ?_ ?_ ?_ ?_ ?_ ?_ ?_ ?_
    · norm_num
    · rw [abs_le]; constructor <;> linarith
    · norm_num [abs_le]
    · norm_num
    · norm_num
    · rw [le_abs]; right; linarith
    · rw [abs_le]; constructor <;> linarith
    · norm_num
  · dsimp only
    push_cast
    refine dist_gt_lat _ _ _ _ _ 3 ?_ ?_ ?_ ?_ ?_ ?_ ?_ ?_
    · norm_num
    · rw [abs_le]; constructor <;> linarith
    · norm_num [abs_le]
    · norm_num
    · norm_num
    · rw [le_abs]; left; linarith
    · rw [abs_le]; constructor <;> linarith
    · norm_num
  · dsimp only
    push_cast
    refine dist_gt_lat _ _ _ _ _ 3 ?_ ?_ ?_ ?_ ?_ ?_ ?_ ?_
    · norm_num
    · rw [abs_le]; constructor <;> linarith
    · norm_num [abs_le]
    · norm_num
    · norm_num
    · rw [le_abs]; right; linarith
    · rw [abs_le]; constructor <;> linarith
    · norm_num
  · dsimp only
    push_cast
    refine dist_gt_lat _ _ _ _ _ 3 ?_ ?_ ?_ ?_ ?_ ?_ ?_ ?_
    · norm_num
    · rw [abs_le]; constructor <;> linarith
    · norm_num [abs_le]
    · norm_num
    · norm_num
    · rw [le_abs]; right; linarith
    · rw [abs_le]; constructor <;> linarith
    · norm_num
  · dsimp only
    push_cast
    refine dist_gt_lat _ _ _ _ _ 1.3 ?_ ?_ ?_ ?_ ?_ ?_ ?_ ?_
    · norm_num
    · rw [abs_le]; constructor <;> linarith
    · norm_num [abs_le]
    · norm_num
    · norm_num
    · rw [le_abs]; right; linarith
    · rw [abs_le]; constructor <;> linarith
    · norm_num
  · dsimp only
    push_cast
    refine dist_gt_lat _ _ _ _ _ 1.1 ?_ ?_ ?_ ?_ ?_ ?_ ?_ ?_
    · norm_num
    · rw [abs_le]; constructor <;> linarith
    · norm_num [abs_le]
    · norm_num
    · norm_num
    · rw [le_abs]; left; linarith
    · rw [abs_le]; constructor <;> linarith
    · norm_num
  · dsimp only
    push_cast
    refine dist_gt_lat _ _ _ _ _ 3 ?_ ?_ ?_ ?_ ?_ ?_ ?_ ?_
    · norm_num
    · rw [abs_le]; constructor <;> linarith
    · norm_num [abs_le]
    · norm_num
    · norm_num
    · rw [le_abs]; left; linarith
    · rw [abs_le]; constructor <;> linarith
    · norm_num
  · dsimp only
    push_cast
    refine dist_gt_lat _ _ _ _ _ 5 ?_ ?_ ?_ ?_ ?_ ?_ ?_ ?_
    · norm_num
    · rw [abs_le]; constructor <;> linarith
    · norm_num [abs_le]
    · norm_num
    · norm_num
    · rw [le_abs]; left; linarith
    · rw [abs_le]; constructor <;> linarith
    · norm_num
  · dsimp only
    push_cast
    refine dist_gt_lat _ _ _ _ _ 5 ?_ ?_ ?_ ?_ ?_ ?_ ?_ ?_
    · norm_num
    · rw [abs_le]; constructor <;> linarith
    · norm_num [abs_le]
    · norm_num
    · norm_num
    · rw [le_abs]; left; linarith
    · rw [abs_le]; constructor <;> linarith
    · norm_num
  · dsimp only
    push_cast
    refine dist_gt_lat _ _ _ _ _ 13 ?_ ?_ ?_ ?_ ?_ ?_ ?_ ?_
    · norm_num
    · rw [abs_le]; constructor <;> linarith
    · norm_num [abs_le]
    · norm_num
    · norm_num
    · rw [le_abs]; left; linarith
    · rw [abs_le]; constructor <;> linarith
    · norm_num
  · dsimp only
    push_cast
    refine dist_gt_lat _ _ _ _ _ 5 ?_ ?_ ?_ ?_ ?_ ?_ ?_ ?_
    · norm_num
    · rw [abs_le]; constructor <;> linarith
    · norm_num [abs_le]
    · norm_num
    · norm_num
    · rw [le_abs]; left; linarith
    · rw [abs_le]; constructor <;> linarith
    · norm_num
  · dsimp only
    push_cast
    refine dist_gt_lat _ _ _ _ _ 4 ?_ ?_ ?_ ?_ ?_ ?_ ?_ ?_
    · norm_num
    · rw [abs_le]; constructor <;> linarith
    · norm_num [abs_le]
    · norm_num
    · norm_num
    · rw [le_abs]; left; linarith
    · rw [abs_le]; constructor <;> linarith
    · norm_num
  · dsimp only
    push_cast
    refine dist_gt_lat _ _ _ _ _ 8 ?_ ?_ ?_ ?_ ?_ ?_ ?_ ?_
    · norm_num
    · rw [abs_le]; constructor <;> linarith
    · norm_num [abs_le]
    · norm_num
    · norm_num
    · rw [le_abs]; left; linarith
    · rw [abs_le]; constructor <;> linarith
    · norm_num
  · dsimp only
    push_cast
    refine dist_gt_lat _ _ _ _ _ 2 ?_ ?_ ?_ ?_ ?_ ?_ ?_ ?_
    · norm_num
    · rw [abs_le]; constructor <;> linarith
    · norm_num [abs_le]
    · norm_num
    · norm_num
    · rw [le_abs]; left; linarith
    · rw [abs_le]; constructor <;> linarith
    · norm_num
  · dsimp only
    push_cast
    refine dist_gt_lat _ _ _ _ _ 1.3 ?_ ?_ ?_ ?_ ?_ ?_ ?_ ?_
    · norm_num
    · rw [abs_le]; constructor <;> linarith
    · norm_num [abs_le]
    · norm_num
    · norm_num
    · rw [le_abs]; left; linarith
    · rw [abs_le]; constructor <;> linarith
    · norm_num
  · dsimp only
    push_cast
    refine dist_gt_lat _ _ _ _ _ 2 ?_ ?_ ?_ ?_ ?_ ?_ ?_ ?_
    · norm_num
    · rw [abs_le]; constructor <;> linarith
    · norm_num [abs_le]
    · norm_num
    · norm_num
    · rw [le_abs]; left; linarith
    · rw [abs_le]; constructor <;> linarith
    · norm_num
  · dsimp only
    push_cast
    refine dist_gt_lat _ _ _ _ _ 11 ?_ ?_ ?_ ?_ ?_ ?_ ?_ ?_
    · norm_num
    · rw [abs_le]; constructor <;> linarith
    · norm_num [abs_le]
    · norm_num
    · norm_num
    · rw [le_abs]; left; linarith
    · rw [abs_le]; constructor <;> linarith
    · norm_num

/-- Every city other than New York is more than 3 miles from the
coordinates estimated for ZIP 10001. -/
theorem zip10001_others : ∀ p ∈ CITY_COORDINATES.tail,
    (3 : ℝ) < calculateDistance ((40.70002 : ℚ) : ℝ) ((-73.99999 : ℚ) : ℝ)
      (p.2.lat : ℝ) (p.2.lon : ℝ) := by
  intro p hp
  simp only [CITY_COORDINATES, List.tail_cons] at hp
  fin_cases hp
  · dsimp only
    push_cast
    refine dist_gt_lat _ _ _ _ _ 6 ?_ ?_ ?_ ?_ ?_ ?_ ?_ ?_ <;>
      norm_num [le_abs, abs_le]
  · dsimp only
    push_cast
    refine dist_gt_lat _ _ _ _ _ 1 ?_ ?_ ?_ ?_ ?_ ?_ ?_ ?_ <;>
      norm_num [le_abs, abs_le]
  · dsimp only
    push_cast
    refine dist_gt_lat _ _ _ _ _ 10 ?_ ?_ ?_ ?_ ?_ ?_ ?_ ?_ <;>
      norm_num [le_abs, abs_le]
  · dsimp only
    push_cast
    refine dist_gt_lat _ _ _ _ _ 7 ?_ ?_ ?_ ?_ ?_ ?_ ?_ ?_ <;>
      norm_num [le_abs, abs_le]
  · dsimp only
    push_cast
    refine dist_gt_lat _ _ _ _ _ 0.7 ?_ ?_ ?_ ?_ ?_ ?_ ?_ ?_ <;>
      norm_num [le_abs, abs_le]
  · dsimp only
    push_cast
    refine dist_gt_lat _ _ _ _ _ 11 ?_ ?_ ?_ ?_ ?_ ?_ ?_ ?_ <;>
      norm_num [le_abs, abs_le]
  · dsimp only
    push_cast
    refine dist_gt_lat _ _ _ _ _ 7 ?_ ?_ ?_ ?_ ?_ ?_ ?_ ?_ <;>
      norm_num [le_abs, abs_le]
  · dsimp only
    push_cast
    refine dist_gt_lat _ _ _ _ _ 7 ?_ ?_ ?_ ?_ ?_ ?_ ?_ ?_ <;>
      norm_num [le_abs, abs_le]
  · dsimp only
    push_cast
    refine dist_gt_lat _ _ _ _ _ 3 ?_ ?_ ?_ ?_ ?_ ?_ ?_ ?_ <;>
      norm_num [le_abs, abs_le]
  · dsimp only
    push_cast
    refine dist_gt_lat _ _ _ _ _ 10 ?_ ?_ ?_ ?_ ?_ ?_ ?_ ?_ <;>
      norm_num [le_abs, abs_le]
  · dsimp only
    push_cast
    refine dist_gt_lat _ _ _ _ _ 10 ?_ ?_ ?_ ?_ ?_ ?_ ?_ ?_ <;>
      norm_num [le_abs, abs_le]
  · dsimp only
    push_cast
    refine dist_gt_lat _ _ _ _ _ 7 ?_ ?_ ?_ ?_ ?_ ?_ ?_ ?_ <;>
      norm_num [le_abs, abs_le]
  · dsimp only
    push_cast
    refine dist_gt_lat _ _ _ _ _ 5 ?_ ?_ ?_ ?_ ?_ ?_ ?_ ?_ <;>
      norm_num [le_abs, abs_le]
  · dsimp only
    push_cast
    refine dist_gt_lat _ _ _ _ _ 2 ?_ ?_ ?_ ?_ ?_ ?_ ?_ ?_ <;>
      norm_num [le_abs, abs_le]
  · dsimp only
    push_cast
    refine dist_gt_lat _ _ _ _ _ 0.9 ?_ ?_ ?_ ?_ ?_ ?_ ?_ ?_ <;>
      norm_num [le_abs, abs_le]
  · dsimp only
    push_cast
    refine dist_gt_lat _ _ _ _ _ 0.7 ?_ ?_ ?_ ?_ ?_ ?_ ?_ ?_ <;>
      norm_num [le_abs, abs_le]
  · dsimp only
    push_cast
    refine dist_gt_lat _ _ _ _ _ 6 ?_ ?_ ?_ ?_ ?_ ?_ ?_ ?_ <;>
      norm_num [le_abs, abs_le]
  · dsimp only
    push_cast
    refine dist_gt_lat _ _ _ _ _ 0.9 ?_ ?_ ?_ ?_ ?_ ?_ ?_ ?_ <;>
      norm_num [le_abs, abs_le]
  · dsimp only
    push_cast
    refine dist_gt_lat _ _ _ _ _ 1 ?_ ?_ ?_ ?_ ?_ ?_ ?_ ?_ <;>
      norm_num [le_abs, abs_le]
  · dsimp only
    push_cast
    refine dist_gt_lat _ _ _ _ _ 1 ?_ ?_ ?_ ?_ ?_ ?_ ?_ ?_ <;>
      norm_num [le_abs, abs_le]
  · dsimp only
    push_cast
    refine dist_gt_lat _ _ _ _ _ 4 ?_ ?_ ?_ ?_ ?_ ?_ ?_ ?_ <;>
      norm_num [le_abs, abs_le]
  · dsimp only
    push_cast
    refine dist_gt_lat _ _ _ _ _ 5 ?_ ?_ ?_ ?_ ?_ ?_ ?_ ?_ <;>
      norm_num [le_abs, abs_le]
  · dsimp only
    push_cast
    refine dist_gt_lat _ _ _ _ _ 4 ?_ ?_ ?_ ?_ ?_ ?_ ?_ ?_ <;>
      norm_num [le_abs, abs_le]
  · dsimp only
    push_cast
    refine dist_gt_lat _ _ _ _ _ 4 ?_ ?_ ?_ ?_ ?_ ?_ ?_ ?_ <;>
      norm_num [le_abs, abs_le]

/-- New York is within 3 miles of the coordinates estimated for
ZIP 10001. -/
theorem zip10001_nyc_close :
    calculateDistance ((40.70002 : ℚ) : ℝ) ((-73.99999 : ℚ) : ℝ)
      ((40.7128 : ℚ) : ℝ) ((-74.0060 : ℚ) : ℝ) ≤ 3 := by
  push_cast
  refine dist_le_close _ _ _ _ _ ?_ ?_ ?_ ?_ ?_ <;> norm_num [abs_le]

end FairRepair

namespace FairRepair

/-! ### The nearest-city scan and the resolver branches -/

/-- A successful lookup in an association list returns one of the stored
values. -/
theorem lookup_mem_values {l : List (String × ℚ)} {a : String} {b : ℚ}
    (h : l.lookup a = some b) : ∃ p ∈ l, p.2 = b := by
  induction l with
  | nil => simp [List.lookup] at h
  | cons c cs ih =>
    rcases c with ⟨k, v⟩
    cases hk : a == k
    · simp only [List.lookup, hk] at h
      obtain ⟨p, hp, hpe⟩ := ih h
      exact ⟨p, List.mem_cons_of_mem _ hp, hpe⟩
    · simp only [List.lookup, hk, Option.some.injEq] at h
      exact ⟨(k, v), List.mem_cons_self _ _, h⟩

/-- The base rate the resolver computes is always positive: every state
table entry is positive and so is the national average. -/
theorem baseRate_pos (st : String) :
    0 < (STATE_LABOR_RATES.lookup st).getD NATIONAL_AVERAGE := by
  cases h : STATE_LABOR_RATES.lookup st with
  | none => norm_num [NATIONAL_AVERAGE, Option.getD]
  | some q =>
    obtain ⟨p, hp, hpe⟩ := lookup_mem_values h
    have hpos : ∀ p ∈ STATE_LABOR_RATES, (0 : ℚ) < p.2 := by
      intro p hp
      simp only [STATE_LABOR_RATES] at hp
      fin_cases hp <;> norm_num
    simpa [Option.getD, ← hpe] using hpos p hp

/-- Every rate in the city table is positive. -/
theorem city_rate_pos : ∀ p ∈ CITY_COORDINATES, (0 : ℚ) < p.2.rate := by
  intro p hp
  simp only [CITY_COORDINATES] at hp
  fin_cases hp <;> norm_num

/-- Folding the scan step over a list starting from a candidate always
yields a candidate. -/
theorem foldl_cityStep_ex (lat lon : ℝ) (l : List (String × CityData)) (nc : NearCity) :
    ∃ nc2, List.foldl (cityStep lat lon) (some nc) l = some nc2 := by
  induction l generalizing nc with
  | nil => exact ⟨nc, rfl⟩
  | cons c cs ih =>
    rw [List.foldl_cons]
    simp only [cityStep]
    by_cases hd : calculateDistance lat lon (c.2.lat : ℝ) (c.2.lon : ℝ) < nc.distance
    · rw [if_pos hd]
      exact ih _
    · rw [if_neg hd]
      exact ih _

/-- The scan over the (nonempty) city table always returns a nearest
city. -/
theorem findNearestCity_ex (lat lon : ℝ) : ∃ nc, findNearestCity lat lon = some nc := by
  unfold findNearestCity CITY_COORDINATES
  rw [List.foldl_cons]
  exact foldl_cityStep_ex lat lon _ _

/-- Where the scan result comes from: either the initial accumulator or
some list entry together with its computed distance. -/
theorem foldl_cityStep_mem (lat lon : ℝ) (l : List (String × CityData))
    (acc : Option NearCity) (nc : NearCity)
    (h : List.foldl (cityStep lat lon) acc l = some nc) :
    acc = some nc ∨ ∃ p ∈ l,
      nc = ⟨p.1, calculateDistance lat lon (p.2.lat : ℝ) (p.2.lon : ℝ), p.2.rate⟩ := by
  induction l generalizing acc with
  | nil => exact Or.inl h
  | cons c cs ih =>
    rw [List.foldl_cons] at h
    rcases ih _ h with hacc | ⟨p, hp, hpe⟩
    · cases acc with
      | none =>
        simp only [cityStep, Option.some.injEq] at hacc
        exact Or.inr ⟨c, List.mem_cons_self _ _, hacc.symm⟩
      | some nc0 =>
        simp only [cityStep] at hacc
        by_cases hd : calculateDistance lat lon (c.2.lat : ℝ) (c.2.lon : ℝ) < nc0.distance
        · rw [if_pos hd] at hacc
          obtain rfl := Option.some.inj hacc
          exact Or.inr ⟨c, List.mem_cons_self _ _, rfl⟩
        · rw [if_neg hd] at hacc
          exact Or.inl hacc
    · exact Or.inr ⟨p, List.mem_cons_of_mem _ hp, hpe⟩

/-- The scan result is one of the table cities paired with its computed
distance. -/
theorem findNearestCity_mem (lat lon : ℝ) (nc : NearCity)
    (h : findNearestCity lat lon = some nc) :
    ∃ p ∈ CITY_COORDINATES,
      nc = ⟨p.1, calculateDistance lat lon (p.2.lat : ℝ) (p.2.lon : ℝ), p.2.rate⟩ := by
  rcases foldl_cityStep_mem lat lon CITY_COORDINATES none nc h with h0 | h1
  · cases h0
  · exact h1

/-- If every city is farther than `T` from a point, so is the scan
result. -/
theorem findNearestCity_far (lat lon T : ℝ)
    (hall : ∀ p ∈ CITY_COORDINATES,
      T < calculateDistance lat lon (p.2.lat : ℝ) (p.2.lon : ℝ))
    (nc : NearCity) (h : findNearestCity lat lon = some nc) : T < nc.distance := by
  obtain ⟨p, hp, rfl⟩ := findNearestCity_mem lat lon nc h
  exact hall p hp

/-- A candidate that no later city beats survives the rest of the
fold. -/
theorem foldl_cityStep_stay (lat lon : ℝ) (nc : NearCity) (l : List (String × CityData))
    (h : ∀ p ∈ l, ¬ calculateDistance lat lon (p.2.lat : ℝ) (p.2.lon : ℝ) < nc.distance) :
    List.foldl (cityStep lat lon) (some nc) l = some nc := by
  induction l with
  | nil => rfl
  | cons c cs ih =>
    rw [List.foldl_cons]
    simp only [cityStep]
    rw [if_neg (h c (List.mem_cons_self _ _))]
    exact ih fun p hp => h p (List.mem_cons_of_mem _ hp)

/-! ### Unfolding the resolver branch by branch -/

/-- Guard branch: falsy input or length other than 5 yields the
National-Average result (laborRates.js, lines 151-161). -/
theorem getLaborRate_guard (v : JSValue) (h : jsFalsy v ∨ jsLength v ≠ some 5) :
    getLaborRate v = nationalAverageResult := by
  unfold getLaborRate
  rw [if_pos (by simpa using h)]

/-- A string of length 5 passes the guard. -/
theorem guard_passes (s : String) (h5 : s.length = 5) :
    ¬ ((jsFalsy (JSValue.jsStr s) : Prop) ∨ jsLength (JSValue.jsStr s) ≠ some 5) := by
  have hne : s ≠ "" := by
    intro h
    rw [h] at h5
    simp at h5
  simp [jsFalsy, jsLength, h5, hne]

/-- Unknown-state branch. -/
theorem getLaborRate_noState (s : String) (h5 : s.length = 5)
    (hst : getStateFromZip (.jsStr s) = none) :
    getLaborRate (.jsStr s) = nationalAverageResult := by
  unfold getLaborRate
  rw [if_neg (guard_passes s h5), hst]

/-- Metro branch: the nearest city is within 15 miles. -/
theorem getLaborRate_metro (s st : String) (nc : NearCity) (h5 : s.length = 5)
    (hst : getStateFromZip (.jsStr s) = some st)
    (hscan : findNearestCity ((getZipCoordinates s).1 : ℝ) ((getZipCoordinates s).2 : ℝ) =
      some nc)
    (hle : nc.distance ≤ 15) :
    getLaborRate (.jsStr s) =
      { rate := nc.rate
        source := nc.name ++ " metro area"
        breakdown :=
          { baseRate := (STATE_LABOR_RATES.lookup st).getD NATIONAL_AVERAGE
            cityPremium := nc.rate - (STATE_LABOR_RATES.lookup st).getD NATIONAL_AVERAGE
            nearestCity := some nc.name
            distanceToCity := some (jsRound1 nc.distance) } } := by
  unfold getLaborRate
  rw [if_neg (guard_passes s h5), hst]
  dsimp only [jsStrVal]
  rw [hscan]
  dsimp only
  rw [if_pos hle]

/-- State-average branch: a nearest city exists but is farther than 15
miles. -/
theorem getLaborRate_state (s st : String) (nc : NearCity) (h5 : s.length = 5)
    (hst : getStateFromZip (.jsStr s) = some st)
    (hscan : findNearestCity ((getZipCoordinates s).1 : ℝ) ((getZipCoordinates s).2 : ℝ) =
      some nc)
    (hgt : ¬ nc.distance ≤ 15) :
    getLaborRate (.jsStr s) =
      { rate := (STATE_LABOR_RATES.lookup st).getD NATIONAL_AVERAGE
        source := st ++ " state average"
        breakdown :=
          { baseRate := (STATE_LABOR_RATES.lookup st).getD NATIONAL_AVERAGE
            cityPremium := 0
            nearestCity := some nc.name
            distanceToCity := some (jsRound1 nc.distance) } } := by
  unfold getLaborRate
  rw [if_neg (guard_passes s h5), hst]
  dsimp only [jsStrVal]
  rw [hscan]
  dsimp only
  rw [if_neg hgt]

/-- Degenerate state-average branch with no scanned city (unreachable
for the fixed nonempty city table, but present in the source). -/
theorem getLaborRate_noCity (s st : String) (h5 : s.length = 5)
    (hst : getStateFromZip (.jsStr s) = some st)
    (hscan : findNearestCity ((getZipCoordinates s).1 : ℝ) ((getZipCoordinates s).2 : ℝ) =
      none) :
    getLaborRate (.jsStr s) =
      { rate := (STATE_LABOR_RATES.lookup st).getD NATIONAL_AVERAGE
        source := st ++ " state average"
        breakdown :=
          { baseRate := (STATE_LABOR_RATES.lookup st).getD NATIONAL_AVERAGE
            cityPremium := 0
            nearestCity := none
            distanceToCity := none } } := by
  unfold getLaborRate
  rw [if_neg (guard_passes s h5), hst]
  dsimp only [jsStrVal]
  rw [hscan]

end FairRepair

namespace FairRepair

/-! ### Concrete evaluations -/

/-- Taking the first five characters of a five-character string is the
identity. -/
theorem take5_of_len5 (s : String) (h5 : s.length = 5) : s.data.take 5 = s.data := by
  have h : s.data.length = 5 := h5
  rw [← h, List.take_length]

theorem parse_10001 : jsParseInt "10001" = some 10001 := by decide

theorem parse_59999 : jsParseInt "59999" = some 59999 := by decide

theorem parse_1234a : jsParseInt "1234a" = some 1234 := by decide

theorem state_10001 : getStateFromZip (.jsStr "10001") = some "NY" := by decide

theorem state_59999 : getStateFromZip (.jsStr "59999") = some "MT" := by decide

theorem state_1234a : getStateFromZip (.jsStr "1234a") = some "MA" := by decide

theorem coords_10001 :
    getZipCoordinates "10001" = ((40.70002 : ℚ), (-73.99999 : ℚ)) := by
  unfold getZipCoordinates
  rw [show jsParseInt "10001" = some 10001 from parse_10001]
  dsimp only
  rw [if_pos (by norm_num)]
  simp only [Prod.mk.injEq]
  constructor <;> norm_num

theorem coords_59999 : getZipCoordinates "59999" = ((39.8 : ℚ), (-98.5 : ℚ)) := by
  unfold getZipCoordinates
  rw [show jsParseInt "59999" = some 59999 from parse_59999]
  dsimp only
  rw [if_neg (by norm_num), if_neg (by norm_num), if_neg (by norm_num), if_neg (by norm_num)]

theorem coords_1234a : getZipCoordinates "1234a" = ((39.8 : ℚ), (-98.5 : ℚ)) := by
  unfold getZipCoordinates
  rw [show jsParseInt "1234a" = some 1234 from parse_1234a]
  dsimp only
  rw [if_neg (by norm_num), if_neg (by norm_num), if_neg (by norm_num), if_neg (by norm_num)]

/-- The scan for ZIP 10001 selects New York: it is the first entry and
every later city is strictly farther. -/
theorem scan_10001 :
    findNearestCity ((40.70002 : ℚ) : ℝ) ((-73.99999 : ℚ) : ℝ) =
      some ⟨"new york",
        calculateDistance ((40.70002 : ℚ) : ℝ) ((-73.99999 : ℚ) : ℝ)
          ((40.7128 : ℚ) : ℝ) ((-74.0060 : ℚ) : ℝ), 140⟩ := by
  unfold findNearestCity
  rw [show CITY_COORDINATES =
    ("new york", ⟨40.7128, -74.0060, 140⟩) :: CITY_COORDINATES.tail from rfl]
  rw [List.foldl_cons]
  simp only [cityStep]
  apply foldl_cityStep_stay
  intro p hp
  have h1 := zip10001_others p hp
  have h2 := zip10001_nyc_close
  dsimp only
  linarith

end FairRepair

namespace FairRepair

/-! ### Well-formedness of every resolution -/

/-- The National-Average fallback result is well formed. -/
theorem nationalAverageResult_wf : WellFormedResolution nationalAverageResult := by
  refine ⟨?_, ?_, ?_, ?_⟩
  · norm_num [nationalAverageResult, NATIONAL_AVERAGE]
  · norm_num [nationalAverageResult, NATIONAL_AVERAGE]
  · norm_num [nationalAverageResult]
  · decide

/-- A state-average source string is never empty. -/
theorem state_source_ne (st : String) : st ++ " state average" ≠ "" := by
  intro h
  have hlen := congrArg String.length h
  rw [String.length_append] at hlen
  rw [show String.length " state average" = 14 from rfl,
    show String.length "" = 0 from rfl] at hlen
  omega

/-- A metro-area source string is never empty. -/
theorem metro_source_ne (c : String) : c ++ " metro area" ≠ "" := by
  intro h
  have hlen := congrArg String.length h
  rw [String.length_append] at hlen
  rw [show String.length " metro area" = 11 from rfl,
    show String.length "" = 0 from rfl] at hlen
  omega

/-- Every resolution the engine produces is well formed: positive rate,
positive base rate, the premium identity, and a non-empty source. -/
theorem getLaborRate_wellFormed (v : JSValue) : WellFormedResolution (getLaborRate v) := by
  cases v with
  | jsNull => rw [getLaborRate_guard _ (Or.inl (by decide))]; exact nationalAverageResult_wf
  | jsNum n => rw [getLaborRate_guard _ (Or.inr (by simp [jsLength]))]; exact nationalAverageResult_wf
  | jsBool b => rw [getLaborRate_guard _ (Or.inr (by simp [jsLength]))]; exact nationalAverageResult_wf
  | jsStr s =>
    by_cases h5 : s.length = 5
    · cases hst : getStateFromZip (.jsStr s) with
      | none => rw [getLaborRate_noState s h5 hst]; exact nationalAverageResult_wf
      | some st =>
        cases hscan : findNearestCity ((getZipCoordinates s).1 : ℝ)
            ((getZipCoordinates s).2 : ℝ) with
        | none =>
          rw [getLaborRate_noCity s st h5 hst hscan]
          exact ⟨baseRate_pos st, baseRate_pos st, by ring, state_source_ne st⟩
        | some nc =>
          by_cases hle : nc.distance ≤ 15
          · rw [getLaborRate_metro s st nc h5 hst hscan hle]
            obtain ⟨p, hp, rfl⟩ := findNearestCity_mem _ _ nc hscan
            exact ⟨city_rate_pos p hp, baseRate_pos st, by ring, metro_source_ne p.1⟩
          · rw [getLaborRate_state s st nc h5 hst hscan hle]
            exact ⟨baseRate_pos st, baseRate_pos st, by ring, state_source_ne st⟩
    · rw [getLaborRate_guard _ (Or.inr (by simp [jsLength, h5]))]
      exact nationalAverageResult_wf

/-! ### Claims -/

/-- C5: getLaborRate is a total function with no failure mode: for every
input, including null, the empty string, non-string values and malformed
ZIP strings, it returns a well-formed rate resolution (positive rate,
positive base rate, additive breakdown, non-empty source) and never
produces an error result. In the shallow embedding totality is by
construction; this theorem establishes the well-formedness of the result
on every branch. -/
theorem claim_C5_total_wellformed (v : JSValue) :
    WellFormedResolution (getLaborRate v) :=
  getLaborRate_wellFormed v

/-- C9: in every resolution returned by getLaborRate the identity
rate = breakdown.baseRate + breakdown.cityPremium holds: the metro
branch sets cityPremium to rate minus baseRate, and the other branches
set cityPremium to 0 with rate equal to baseRate. -/
theorem claim_C9_premium_identity (v : JSValue) :
    (getLaborRate v).rate =
      (getLaborRate v).breakdown.baseRate + (getLaborRate v).breakdown.cityPremium :=
  (getLaborRate_wellFormed v).2.2.1

/-- C6: the labor multiplier, the resolved rate divided by the national
average 144.06, is strictly positive for every input, and equals exactly
1 for inputs resolving to the National-Average fallback such as "00000"
and the empty string. -/
theorem claim_C6_multiplier :
    (∀ v : JSValue, 0 < getLaborMultiplier v) ∧
      getLaborMultiplier (.jsStr "00000") = 1 ∧
      getLaborMultiplier (.jsStr "") = 1 := by
  refine ⟨?_, ?_, ?_⟩
  · intro v
    unfold getLaborMultiplier
    exact div_pos (getLaborRate_wellFormed v).1 (by norm_num [NATIONAL_AVERAGE])
  · unfold getLaborMultiplier
    rw [getLaborRate_noState "00000" (by decide) (by decide)]
    norm_num [nationalAverageResult, NATIONAL_AVERAGE]
  · unfold getLaborMultiplier
    rw [getLaborRate_guard _ (Or.inl (by decide))]
    norm_num [nationalAverageResult, NATIONAL_AVERAGE]

/-- C8: calculateDistance is symmetric in its two coordinate pairs and
zero on equal points, under the haversine formula with Earth radius
3959 miles. -/
theorem claim_C8_distance_symm_zero :
    (∀ lat1 lon1 lat2 lon2 : ℝ,
      calculateDistance lat1 lon1 lat2 lon2 = calculateDistance lat2 lon2 lat1 lon1) ∧
    ∀ lat lon : ℝ, calculateDistance lat lon lat lon = 0 := by
  constructor
  · intro l1 o1 l2 o2
    unfold calculateDistance
    rw [haversineTerm_symm]
  · intro lat lon
    have h : haversineTerm lat lon lat lon = 0 := by
      unfold haversineTerm
      simp
    unfold calculateDistance
    rw [h]
    norm_num [jsAtan2, Real.sqrt_zero, Real.sqrt_one, Real.arctan_zero]

end FairRepair

namespace FairRepair

/-- C1 counterexample: the 5-character non-numeric string "1234a" does
not resolve to the National Average. JavaScript parseInt extracts the
numeric prefix 1234, which falls in the Massachusetts range, so the
result is the MA state average 135.63. -/
theorem claim_C1_counterexample :
    (getLaborRate (.jsStr "1234a")).rate = 135.63 ∧
      (getLaborRate (.jsStr "1234a")).source = "MA state average" := by
  obtain ⟨nc, hscan⟩ := findNearestCity_ex ((39.8 : ℚ) : ℝ) ((-98.5 : ℚ) : ℝ)
  have hfar := findNearestCity_far _ _ 15 center_far nc hscan
  have hsc : findNearestCity ((getZipCoordinates "1234a").1 : ℝ)
      ((getZipCoordinates "1234a").2 : ℝ) = some nc := by
    rw [coords_1234a]
    exact hscan
  rw [getLaborRate_state "1234a" "MA" nc (by decide) state_1234a hsc (by linarith)]
  exact ⟨rfl, rfl⟩

/-- C1 amended: for every malformed ZIP input — absent (null), not a
string, a string of length other than 5, or a string whose first five
characters contain no parseable number (parseInt yields NaN) —
getLaborRate resolves to the National Average. A 5-character
non-numeric string whose prefix does parse (such as "1234a") instead
resolves through that number's state range. -/
theorem claim_C1_malformed_national (v : JSValue)
    (h : v = .jsNull ∨ (∀ s, v ≠ .jsStr s) ∨
      (∃ s, v = .jsStr s ∧ s.length ≠ 5) ∨
      (∃ s, v = .jsStr s ∧ jsParseIntL (s.data.take 5) = none)) :
    getLaborRate v = nationalAverageResult := by
  rcases h with rfl | hns | ⟨s, rfl, hlen⟩ | ⟨s, rfl, hparse⟩
  · exact getLaborRate_guard _ (Or.inl (by decide))
  · cases v with
    | jsNull => exact getLaborRate_guard _ (Or.inl (by decide))
    | jsStr s => exact absurd rfl (hns s)
    | jsNum n => exact getLaborRate_guard _ (Or.inr (by simp [jsLength]))
    | jsBool b => exact getLaborRate_guard _ (Or.inr (by simp [jsLength]))
  · exact getLaborRate_guard _ (Or.inr (by simp [jsLength, hlen]))
  · by_cases h5 : s.length = 5
    · apply getLaborRate_noState s h5
      simp only [getStateFromZip]
      by_cases he : s = ""
      · rw [if_pos he]
      · rw [if_neg he, hparse]
    · exact getLaborRate_guard _ (Or.inr (by simp [jsLength, h5]))

/-- Witness for the amended C1 at the concrete 5-character input
"abc12", whose parse is NaN. -/
theorem claim_C1_witness : getLaborRate (.jsStr "abc12") = nationalAverageResult :=
  claim_C1_malformed_national _ (Or.inr (Or.inr (Or.inr ⟨"abc12", rfl, by decide⟩)))

/-- C3: ZIP 59999 (rural Montana) resolves to the MT state average
144.06 with zero city premium: its estimated coordinates are the
continental-center fallback, which is more than 15 miles from every
listed city. -/
theorem claim_C3_rural_montana :
    (getLaborRate (.jsStr "59999")).rate = 144.06 ∧
      (getLaborRate (.jsStr "59999")).source = "MT state average" ∧
      (getLaborRate (.jsStr "59999")).breakdown.cityPremium = 0 := by
  obtain ⟨nc, hscan⟩ := findNearestCity_ex ((39.8 : ℚ) : ℝ) ((-98.5 : ℚ) : ℝ)
  have hfar := findNearestCity_far _ _ 15 center_far nc hscan
  have hsc : findNearestCity ((getZipCoordinates "59999").1 : ℝ)
      ((getZipCoordinates "59999").2 : ℝ) = some nc := by
    rw [coords_59999]
    exact hscan
  rw [getLaborRate_state "59999" "MT" nc (by decide) state_59999 hsc (by linarith)]
  exact ⟨rfl, rfl, rfl⟩

/-- C4: ZIP 10001 resolves through the metro branch for "new york": the
scan selects New York at a distance of at most 15 miles, the source is
the metro classification and the rate is the city rate 140. -/
theorem claim_C4_manhattan :
    ∃ d : ℝ,
      findNearestCity ((getZipCoordinates "10001").1 : ℝ)
          ((getZipCoordinates "10001").2 : ℝ) = some ⟨"new york", d, 140⟩ ∧
        d ≤ 15 ∧
        (getLaborRate (.jsStr "10001")).source = "new york metro area" ∧
        (getLaborRate (.jsStr "10001")).rate = 140 := by
  have hd15 : calculateDistance ((40.70002 : ℚ) : ℝ) ((-73.99999 : ℚ) : ℝ)
      ((40.7128 : ℚ) : ℝ) ((-74.0060 : ℚ) : ℝ) ≤ 15 :=
    le_trans zip10001_nyc_close (by norm_num)
  have hsc : findNearestCity ((getZipCoordinates "10001").1 : ℝ)
      ((getZipCoordinates "10001").2 : ℝ) =
      some ⟨"new york",
        calculateDistance ((40.70002 : ℚ) : ℝ) ((-73.99999 : ℚ) : ℝ)
          ((40.7128 : ℚ) : ℝ) ((-74.0060 : ℚ) : ℝ), 140⟩ := by
    rw [coords_10001]
    exact scan_10001
  refine ⟨_, hsc, hd15, ?_, ?_⟩ <;>
    (rw [getLaborRate_metro "10001" "NY" _ (by decide) state_10001 hsc hd15]; try rfl)

end FairRepair

namespace FairRepair

/-- C7: both Virginia ranges map to VA: every ZIP whose first five
characters parse to a number in 20100-20199 or 22000-24699 resolves to
VA, and in particular ZIPs 22501 and 20105 do. -/
theorem claim_C7_virginia_ranges :
    (∀ (s : String) (n : ℤ), jsParseIntL (s.data.take 5) = some n →
      (20100 ≤ n ∧ n ≤ 20199) ∨ (22000 ≤ n ∧ n ≤ 24699) →
      getStateFromZip (.jsStr s) = some "VA") ∧
    getStateFromZip (.jsStr "22501") = some "VA" ∧
    getStateFromZip (.jsStr "20105") = some "VA" := by
  refine ⟨?_, by decide, by decide⟩
  intro s n hp hr
  have hne : s ≠ "" := by
    intro he
    subst he
    rw [show jsParseIntL ("".data.take 5) = none from by decide] at hp
    exact Option.noConfusion hp
  simp only [getStateFromZip]
  rw [if_neg hne, hp]
  dsimp only
  rcases hr with ⟨h1, h2⟩ | ⟨h1, h2⟩
  · iterate 46 rw [if_neg (by omega)]
    rw [if_pos (by omega)]
  · iterate 47 rw [if_neg (by omega)]
    rw [if_pos (by omega)]

/-- Witness for C7 at the concrete dual-range ZIP 22501. -/
theorem claim_C7_witness :
    jsParseIntL ("22501".data.take 5) = some 22501 ∧
      getStateFromZip (.jsStr "22501") = some "VA" :=
  ⟨by decide, claim_C7_virginia_ranges.1 "22501" 22501 (by decide) (Or.inr (by omega))⟩

/-- C10: the continental-center fallback is more than 15 miles from
every listed city, so a 5-character ZIP parsing to a number outside all
four estimator bands never takes the metro branch: the premium is 0,
the rate equals the base rate, and the source is the national or the
state average. -/
theorem claim_C10_no_metro_outside_bands :
    (∀ p ∈ CITY_COORDINATES,
      (15 : ℝ) < calculateDistance ((39.8 : ℚ) : ℝ) ((-98.5 : ℚ) : ℝ)
        (p.2.lat : ℝ) (p.2.lon : ℝ)) ∧
    ∀ (s : String) (n : ℤ), s.length = 5 → jsParseInt s = some n →
      ¬(10000 ≤ n ∧ n ≤ 14999) → ¬(90000 ≤ n ∧ n ≤ 96999) →
      ¬(60000 ≤ n ∧ n ≤ 69999) → ¬(77000 ≤ n ∧ n ≤ 79999) →
      (getLaborRate (.jsStr s)).breakdown.cityPremium = 0 ∧
        (getLaborRate (.jsStr s)).rate = (getLaborRate (.jsStr s)).breakdown.baseRate ∧
        ((getLaborRate (.jsStr s)).source = "National Average" ∨
          ∃ st, getStateFromZip (.jsStr s) = some st ∧
            (getLaborRate (.jsStr s)).source = st ++ " state average") := by
  refine ⟨center_far, ?_⟩
  intro s n h5 hps hb1 hb2 hb3 hb4
  have hco : getZipCoordinates s = ((39.8 : ℚ), (-98.5 : ℚ)) := by
    unfold getZipCoordinates
    rw [hps]
    dsimp only
    rw [if_neg hb1, if_neg hb2, if_neg hb3, if_neg hb4]
  obtain ⟨nc, hscan0⟩ := findNearestCity_ex ((39.8 : ℚ) : ℝ) ((-98.5 : ℚ) : ℝ)
  have hfar := findNearestCity_far _ _ 15 center_far nc hscan0
  have hsc : findNearestCity ((getZipCoordinates s).1 : ℝ)
      ((getZipCoordinates s).2 : ℝ) = some nc := by
    rw [hco]
    exact hscan0
  cases hst : getStateFromZip (.jsStr s) with
  | none =>
    rw [getLaborRate_noState s h5 hst]
    exact ⟨rfl, rfl, Or.inl rfl⟩
  | some st =>
    rw [getLaborRate_state s st nc h5 hst hsc (by linarith)]
    exact ⟨rfl, rfl, Or.inr ⟨st, rfl, rfl⟩⟩

/-- Witness for C10 at the concrete out-of-band ZIP 50000 (Iowa). -/
theorem claim_C10_witness :
    (getLaborRate (.jsStr "50000")).breakdown.cityPremium = 0 ∧
      (getLaborRate (.jsStr "50000")).rate =
        (getLaborRate (.jsStr "50000")).breakdown.baseRate := by
  have h := claim_C10_no_metro_outside_bands.2 "50000" 50000 (by decide) (by decide)
    (by omega) (by omega) (by omega) (by omega)
  exact ⟨h.1, h.2.1⟩

end FairRepair

namespace FairRepair

set_option maxHeartbeats 1000000 in
/-- C2: for every 5-character ZIP whose nearest city in the table (by
minimum haversine distance from the estimated coordinates) lies within
15 miles, getLaborRate returns that city's metro rate, a metro-area
source, a cityPremium of the city rate minus the state base rate
(possibly negative), and the nearest city's name and rounded distance
in the breakdown. -/
theorem claim_C2_metro_resolution (s : String) (nc : NearCity) (h5 : s.length = 5)
    (hscan : findNearestCity ((getZipCoordinates s).1 : ℝ)
      ((getZipCoordinates s).2 : ℝ) = some nc)
    (hle : nc.distance ≤ 15) :
    ∃ st, getStateFromZip (.jsStr s) = some st ∧
      getLaborRate (.jsStr s) =
        { rate := nc.rate
          source := nc.name ++ " metro area"
          breakdown :=
            { baseRate := (STATE_LABOR_RATES.lookup st).getD NATIONAL_AVERAGE
              cityPremium := nc.rate - (STATE_LABOR_RATES.lookup st).getD NATIONAL_AVERAGE
              nearestCity := some nc.name
              distanceToCity := some (jsRound1 nc.distance) } } := by
  have hne : s ≠ "" := by
    intro he
    rw [he] at h5
    simp at h5
  have ht5 := take5_of_len5 s h5
  cases hps : jsParseInt s with
  | none =>
    exfalso
    have hco : getZipCoordinates s = ((39.8 : ℚ), (-98.5 : ℚ)) := by
      unfold getZipCoordinates
      rw [hps]
    rw [hco] at hscan
    have := findNearestCity_far _ _ 15 center_far nc hscan
    linarith
  | some n =>
    by_cases hb1 : 10000 ≤ n ∧ n ≤ 14999
    · have hst : getStateFromZip (.jsStr s) = some "NY" := by
        simp only [getStateFromZip]
        rw [if_neg hne, ht5, show jsParseIntL s.data = some n from hps]
        dsimp only
        iterate 32 rw [if_neg (by omega)]
        rw [if_pos (by omega)]
      exact ⟨"NY", hst, getLaborRate_metro s "NY" nc h5 hst hscan hle⟩
    · by_cases hb2 : 90000 ≤ n ∧ n ≤ 96999
      · by_cases hca : n ≤ 96699
        · have hst : getStateFromZip (.jsStr s) = some "CA" := by
            simp only [getStateFromZip]
            rw [if_neg hne, ht5, show jsParseIntL s.data = some n from hps]
            dsimp only
            iterate 4 rw [if_neg (by omega)]
            rw [if_pos (by omega)]
          exact ⟨"CA", hst, getLaborRate_metro s "CA" nc h5 hst hscan hle⟩
        · by_cases hhi : n ≤ 96899
          · have hst : getStateFromZip (.jsStr s) = some "HI" := by
              simp only [getStateFromZip]
              rw [if_neg hne, ht5, show jsParseIntL s.data = some n from hps]
              dsimp only
              iterate 11 rw [if_neg (by omega)]
              rw [if_pos (by omega)]
            exact ⟨"HI", hst, getLaborRate_metro s "HI" nc h5 hst hscan hle⟩
          · exfalso
            have hn1 : (96900 : ℤ) ≤ n := by omega
            have hn2 : n ≤ 96999 := hb2.2
            have hco : getZipCoordinates s =
                ((34.0 + ((n : ℚ) - 90000) / 70000 : ℚ),
                  (-118.0 + ((n : ℚ) - 90000) / 100000 : ℚ)) := by
              unfold getZipCoordinates
              rw [hps]
              dsimp only
              rw [if_neg hb1, if_pos hb2]
            rw [hco] at hscan
            dsimp only at hscan
            have hq1 : (34.0985 : ℝ) ≤ ((34.0 + ((n : ℚ) - 90000) / 70000 : ℚ) : ℝ) := by
              push_cast
              have h1 : (96900 : ℝ) ≤ (n : ℝ) := by exact_mod_cast hn1
              linarith
            have hq2 : ((34.0 + ((n : ℚ) - 90000) / 70000 : ℚ) : ℝ) ≤ 34.1 := by
              push_cast
              have h2 : (n : ℝ) ≤ 96999 := by exact_mod_cast hn2
              linarith
            have hq3 : (-117.931 : ℝ) ≤ ((-118.0 + ((n : ℚ) - 90000) / 100000 : ℚ) : ℝ) := by
              push_cast
              have h1 : (96900 : ℝ) ≤ (n : ℝ) := by exact_mod_cast hn1
              linarith
            have hq4 : ((-118.0 + ((n : ℚ) - 90000) / 100000 : ℚ) : ℝ) ≤ -117.93 := by
              push_cast
              have h2 : (n : ℝ) ≤ 96999 := by exact_mod_cast hn2
              linarith
            have hfar := findNearestCity_far _ _ 15 (band969_far _ _ hq1 hq2 hq3 hq4) nc hscan
            linarith
      · by_cases hb3 : 60000 ≤ n ∧ n ≤ 69999
        · by_cases hil : n ≤ 62999
          · have hst : getStateFromZip (.jsStr s) = some "IL" := by
              simp only [getStateFromZip]
              rw [if_neg hne, ht5, show jsParseIntL s.data = some n from hps]
              dsimp only
              iterate 13 rw [if_neg (by omega)]
              rw [if_pos (by omega)]
            exact ⟨"IL", hst, getLaborRate_metro s "IL" nc h5 hst hscan hle⟩
          · by_cases hmo : n ≤ 65999
            · have hst : getStateFromZip (.jsStr s) = some "MO" := by
                simp only [getStateFromZip]
                rw [if_neg hne, ht5, show jsParseIntL s.data = some n from hps]
                dsimp only
                iterate 25 rw [if_neg (by omega)]
                rw [if_pos (by omega)]
              exact ⟨"MO", hst, getLaborRate_metro s "MO" nc h5 hst hscan hle⟩
            · by_cases hks : n ≤ 67999
              · have hst : getStateFromZip (.jsStr s) = some "KS" := by
                  simp only [getStateFromZip]
                  rw [if_neg hne, ht5, show jsParseIntL s.data = some n from hps]
                  dsimp only
                  iterate 16 rw [if_neg (by omega)]
                  rw [if_pos (by omega)]
                exact ⟨"KS", hst, getLaborRate_metro s "KS" nc h5 hst hscan hle⟩
              · have hst : getStateFromZip (.jsStr s) = some "NE" := by
                  simp only [getStateFromZip]
                  rw [if_neg hne, ht5, show jsParseIntL s.data = some n from hps]
                  dsimp only
                  iterate 27 rw [if_neg (by omega)]
                  rw [if_pos (by omega)]
                exact ⟨"NE", hst, getLaborRate_metro s "NE" nc h5 hst hscan hle⟩
        · by_cases hb4 : 77000 ≤ n ∧ n ≤ 79999
          · have hst : getStateFromZip (.jsStr s) = some "TX" := by
              simp only [getStateFromZip]
              rw [if_neg hne, ht5, show jsParseIntL s.data = some n from hps]
              dsimp only
              iterate 43 rw [if_neg (by omega)]
              rw [if_pos (by omega)]
            exact ⟨"TX", hst, getLaborRate_metro s "TX" nc h5 hst hscan hle⟩
          · exfalso
            have hco : getZipCoordinates s = ((39.8 : ℚ), (-98.5 : ℚ)) := by
              unfold getZipCoordinates
              rw [hps]
              dsimp only
              rw [if_neg hb1, if_neg hb2, if_neg hb3, if_neg hb4]
            rw [hco] at hscan
            have := findNearestCity_far _ _ 15 center_far nc hscan
            linarith

/-- Witness for C2 at the Manhattan ZIP 10001, whose nearest city is
New York within 15 miles. -/
theorem claim_C2_witness :
    getLaborRate (.jsStr "10001") =
      { rate := 140
        source := "new york" ++ " metro area"
        breakdown :=
          { baseRate := (STATE_LABOR_RATES.lookup "NY").getD NATIONAL_AVERAGE
            cityPremium := 140 - (STATE_LABOR_RATES.lookup "NY").getD NATIONAL_AVERAGE
            nearestCity := some "new york"
            distanceToCity := some (jsRound1
              (calculateDistance ((40.70002 : ℚ) : ℝ) ((-73.99999 : ℚ) : ℝ)
                ((40.7128 : ℚ) : ℝ) ((-74.0060 : ℚ) : ℝ))) } } := by
  have hsc : findNearestCity ((getZipCoordinates "10001").1 : ℝ)
      ((getZipCoordinates "10001").2 : ℝ) =
      some ⟨"new york",
        calculateDistance ((40.70002 : ℚ) : ℝ) ((-73.99999 : ℚ) : ℝ)
          ((40.7128 : ℚ) : ℝ) ((-74.0060 : ℚ) : ℝ), 140⟩ := by
    rw [coords_10001]
    exact scan_10001
  obtain ⟨st, hst, heq⟩ := claim_C2_metro_resolution "10001"
    ⟨"new york",
      calculateDistance ((40.70002 : ℚ) : ℝ) ((-73.99999 : ℚ) : ℝ)
        ((40.7128 : ℚ) : ℝ) ((-74.0060 : ℚ) : ℝ), 140⟩
    (by decide) hsc (le_trans zip10001_nyc_close (by norm_num))
  have hst2 := state_10001
  rw [hst] at hst2
  obtain rfl := (Option.some.inj hst2).symm
  exact heq

end FairRepair
